import Mathlib

/-!
Verification of the query-builder, transaction and row-materialization layers
of the `orm` crate, as a shallow embedding in Lean.

The embedding follows the Rust source:
  * `src/src/query/builder.rs` — `SQLiteQueryBuilder`, `MySQLQueryBuilder`
  * `src/src/query/executor.rs` — `QueryValue`
  * `src/src/error.rs` — `Error`
  * `src/src/transaction/mod.rs` — `Transaction`
  * `src/src/utils.rs` — `sqlite_row_to_json`, `mysql_row_to_json`, `base64_encode`
  * `src/src/backend/sqlite.rs` — per-cell decoding in `fetch_all_params`
The dialect-parameterized builder carrying the value-accepting methods
(`where_eq`, `values_params`, `set_param`, `params()`) is declared in
`src/src/query/mod.rs` and called by tests and the model layer, but its
implementation is not present under `src`; it is modelled from the spec below
(`ParamBuilder`).

Machine integers (`u64`, `i32`, `i64`) are modelled as `Nat`/`Int`; no
arithmetic is performed on them by the code under verification, so overflow
is irrelevant.  `f64` payloads are carried as their 64-bit representation
(a `Nat`), never interpreted.
-/

namespace Orm

/-- `OrderDirection` from `src/src/query/mod.rs`. -/
inductive OrderDirection
  | Asc
  | Desc
deriving DecidableEq, Repr

/-- The `Display` instance of `OrderDirection`. -/
def OrderDirection.render : OrderDirection → String
  | .Asc => "ASC"
  | .Desc => "DESC"

/-- `JoinType` from `src/src/query/mod.rs`. -/
inductive JoinType
  | Inner
  | Left
  | Right
  | Full
deriving DecidableEq, Repr

/-- Rendering of a join keyword (spec §4.1: `<INNER|LEFT|RIGHT|FULL> JOIN`). -/
def JoinType.render : JoinType → String
  | .Inner => "INNER JOIN"
  | .Left => "LEFT JOIN"
  | .Right => "RIGHT JOIN"
  | .Full => "FULL JOIN"

/-- `QueryType` from `src/src/query/builder.rs`. -/
inductive QueryType
  | Select
  | Insert
  | Update
  | Delete
deriving DecidableEq, Repr

/-- `Dialect` (used throughout `src`, declared in the missing part of
`src/src/query/builder.rs`; its two variants `SQLite` and `MySQL` are fixed by
every caller, e.g. `src/src/backend/sqlite.rs` and `src/src/migration/mod.rs`). -/
inductive Dialect
  | SQLite
  | MySQL
deriving DecidableEq, Repr

/-- `QueryValue` from `src/src/query/executor.rs`.  The `F64` payload is the
64-bit representation of the float, carried opaquely. -/
inductive QueryValue
  | Null
  | Bool (b : Bool)
  | I32 (v : Int)
  | I64 (v : Int)
  | F64 (bits : Nat)
  | String (s : String)
deriving DecidableEq, Repr

/-- Opaque stand-in for `sqlx::Error` (driver errors are passed through
verbatim and never inspected by the code under verification). -/
structure SqlxError where
  code : Nat
deriving DecidableEq, Repr

/-- `Error` from `src/src/error.rs` (the `IoError` variant is irrelevant to the
verified operations and carries an opaque code here). -/
inductive Error
  | ConnectionError (msg : String)
  | QueryError (msg : String)
  | TransactionError (msg : String)
  | MigrationError (msg : String)
  | SerializationError (msg : String)
  | ConstraintViolation (msg : String)
  | ConfigError (msg : String)
  | DatabaseError (e : SqlxError)
  | IoError (code : Nat)
deriving DecidableEq, Repr

instance {ε α : Type} [DecidableEq ε] [DecidableEq α] : DecidableEq (Except ε α) :=
  fun a b =>
    match a, b with
    | .ok x, .ok y =>
      if h : x = y then .isTrue (by rw [h]) else .isFalse (fun hc => h (Except.ok.inj hc))
    | .error x, .error y =>
      if h : x = y then .isTrue (by rw [h]) else .isFalse (fun hc => h (Except.error.inj hc))
    | .ok _, .error _ => .isFalse (fun hc => Except.noConfusion hc)
    | .error _, .ok _ => .isFalse (fun hc => Except.noConfusion hc)

/-- Rust's `Vec::join(sep)` / `[T]::join`. -/
def joinSep (sep : String) : List String → String
  | [] => ""
  | [x] => x
  | x :: xs => x ++ sep ++ joinSep sep xs

/-! ## The builder implementations present in `src/src/query/builder.rs` -/

/-- `SQLiteQueryBuilder` (src/src/query/builder.rs:179). -/
structure SQLiteQueryBuilder where
  query_type : QueryType
  columns : List String
  table : Option String
  where_clauses : List String
  order_by : List (String × OrderDirection)
  limit : Option Nat
  offset : Option Nat
  insert_table : Option String
  insert_columns : List String
  insert_values : List (List String)
  update_table : Option String
  update_sets : List (String × String)
  delete_table : Option String
  returning_columns : List String
deriving DecidableEq, Repr

namespace SQLiteQueryBuilder

/-- `SQLiteQueryBuilder::new` (src/src/query/builder.rs:197). -/
def new : SQLiteQueryBuilder where
  query_type := .Select
  columns := []
  table := none
  where_clauses := []
  order_by := []
  limit := none
  offset := none
  insert_table := none
  insert_columns := []
  insert_values := []
  update_table := none
  update_sets := []
  delete_table := none
  returning_columns := []

/-- `build_select` (src/src/query/builder.rs:216).  Each `let` mirrors one
`push_str` block of the source. -/
def build_select (b : SQLiteQueryBuilder) : Except Error String :=
  let sql := "SELECT " ++ (if b.columns.isEmpty then "*" else joinSep ", " b.columns)
  let sql := match b.table with
    | some t => sql ++ " FROM " ++ t
    | none => sql
  let sql := if b.where_clauses.isEmpty then sql
    else sql ++ " WHERE " ++ joinSep " AND " b.where_clauses
  let sql := if b.order_by.isEmpty then sql
    else sql ++ " ORDER BY " ++
      joinSep ", " (b.order_by.map fun p => p.1 ++ " " ++ p.2.render)
  let sql := match b.limit with
    | some n => sql ++ " LIMIT " ++ toString n
    | none => sql
  let sql := match b.offset with
    | some n => sql ++ " OFFSET " ++ toString n
    | none => sql
  .ok sql

/-- `build_insert` (src/src/query/builder.rs:256). -/
def build_insert (b : SQLiteQueryBuilder) : Except Error String :=
  match b.insert_table with
  | none => .error (.QueryError "No table specified for INSERT")
  | some table =>
    if b.insert_columns.isEmpty then
      .error (.QueryError "No columns specified for INSERT")
    else if b.insert_values.isEmpty then
      .error (.QueryError "No values specified for INSERT")
    else
      let sql := "INSERT INTO " ++ table ++ " (" ++ joinSep ", " b.insert_columns
        ++ ") VALUES "
      let sql := sql ++
        joinSep ", " (b.insert_values.map fun row => "(" ++ joinSep ", " row ++ ")")
      let sql := if b.returning_columns.isEmpty then sql
        else sql ++ " RETURNING " ++ joinSep ", " b.returning_columns
      .ok sql

/-- `build_update` (src/src/query/builder.rs:295). -/
def build_update (b : SQLiteQueryBuilder) : Except Error String :=
  match b.update_table with
  | none => .error (.QueryError "No table specified for UPDATE")
  | some table =>
    if b.update_sets.isEmpty then
      .error (.QueryError "No SET clauses specified for UPDATE")
    else
      let sql := "UPDATE " ++ table ++ " SET " ++
        joinSep ", " (b.update_sets.map fun p => p.1 ++ " = " ++ p.2)
      let sql := if b.where_clauses.isEmpty then sql
        else sql ++ " WHERE " ++ joinSep " AND " b.where_clauses
      let sql := if b.returning_columns.isEmpty then sql
        else sql ++ " RETURNING " ++ joinSep ", " b.returning_columns
      .ok sql

/-- `build_delete` (src/src/query/builder.rs:329). -/
def build_delete (b : SQLiteQueryBuilder) : Except Error String :=
  match b.delete_table with
  | none => .error (.QueryError "No table specified for DELETE")
  | some table =>
    let sql := "DELETE FROM " ++ table
    let sql := if b.where_clauses.isEmpty then sql
      else sql ++ " WHERE " ++ joinSep " AND " b.where_clauses
    let sql := if b.returning_columns.isEmpty then sql
      else sql ++ " RETURNING " ++ joinSep ", " b.returning_columns
    .ok sql

/-- `build` (src/src/query/builder.rs:417). -/
def build (b : SQLiteQueryBuilder) : Except Error String :=
  match b.query_type with
  | .Select => b.build_select
  | .Insert => b.build_insert
  | .Update => b.build_update
  | .Delete => b.build_delete

/-- `reset` (src/src/query/builder.rs:426). -/
def reset (_b : SQLiteQueryBuilder) : SQLiteQueryBuilder where
  query_type := .Select
  columns := []
  table := none
  where_clauses := []
  order_by := []
  limit := none
  offset := none
  insert_table := none
  insert_columns := []
  insert_values := []
  update_table := none
  update_sets := []
  delete_table := none
  returning_columns := []

/-- `select` (src/src/query/builder.rs:351); the source stores
`columns.iter().map(|c| c.name())`, so the argument here is the column names. -/
def select (b : SQLiteQueryBuilder) (cols : List String) : SQLiteQueryBuilder :=
  { b with query_type := .Select, columns := cols }

/-- `from` (src/src/query/builder.rs:357); named `fromTable` because `from`
is reserved in Lean. -/
def fromTable (b : SQLiteQueryBuilder) (t : String) : SQLiteQueryBuilder :=
  { b with table := some t }

/-- `where_clause` (src/src/query/builder.rs:362). -/
def where_clause (b : SQLiteQueryBuilder) (c : String) : SQLiteQueryBuilder :=
  { b with where_clauses := b.where_clauses ++ [c] }

/-- `order_by` the method (src/src/query/builder.rs:367); named `orderBy` to
avoid clashing with the field of the same name. -/
def orderBy (b : SQLiteQueryBuilder) (c : String) (d : OrderDirection) :
    SQLiteQueryBuilder :=
  { b with order_by := b.order_by ++ [(c, d)] }

/-- `limit` the method (src/src/query/builder.rs:372). -/
def setLimit (b : SQLiteQueryBuilder) (n : Nat) : SQLiteQueryBuilder :=
  { b with limit := some n }

/-- `offset` the method (src/src/query/builder.rs:377). -/
def setOffset (b : SQLiteQueryBuilder) (n : Nat) : SQLiteQueryBuilder :=
  { b with offset := some n }

/-- `insert_into` (src/src/query/builder.rs:382). -/
def insert_into (b : SQLiteQueryBuilder) (t : String) (cols : List String) :
    SQLiteQueryBuilder :=
  { b with query_type := .Insert, insert_table := some t, insert_columns := cols }

/-- `values` (src/src/query/builder.rs:389). -/
def values (b : SQLiteQueryBuilder) (vs : List String) : SQLiteQueryBuilder :=
  { b with insert_values := b.insert_values ++ [vs] }

/-- `update` (src/src/query/builder.rs:395). -/
def update (b : SQLiteQueryBuilder) (t : String) : SQLiteQueryBuilder :=
  { b with query_type := .Update, update_table := some t }

/-- `set` (src/src/query/builder.rs:401). -/
def set (b : SQLiteQueryBuilder) (c v : String) : SQLiteQueryBuilder :=
  { b with update_sets := b.update_sets ++ [(c, v)] }

/-- `delete_from` (src/src/query/builder.rs:406). -/
def delete_from (b : SQLiteQueryBuilder) (t : String) : SQLiteQueryBuilder :=
  { b with query_type := .Delete, delete_table := some t }

/-- `returning` (src/src/query/builder.rs:412). -/
def returning (b : SQLiteQueryBuilder) (cols : List String) : SQLiteQueryBuilder :=
  { b with returning_columns := cols }

end SQLiteQueryBuilder

/-- `MySQLQueryBuilder` (src/src/query/builder.rs:444): identical state except
that it has no `returning_columns` field. -/
structure MySQLQueryBuilder where
  query_type : QueryType
  columns : List String
  table : Option String
  where_clauses : List String
  order_by : List (String × OrderDirection)
  limit : Option Nat
  offset : Option Nat
  insert_table : Option String
  insert_columns : List String
  insert_values : List (List String)
  update_table : Option String
  update_sets : List (String × String)
  delete_table : Option String
deriving DecidableEq, Repr

namespace MySQLQueryBuilder

/-- `MySQLQueryBuilder::new` (src/src/query/builder.rs:461). -/
def new : MySQLQueryBuilder where
  query_type := .Select
  columns := []
  table := none
  where_clauses := []
  order_by := []
  limit := none
  offset := none
  insert_table := none
  insert_columns := []
  insert_values := []
  update_table := none
  update_sets := []
  delete_table := none

/-- `build_select` (src/src/query/builder.rs:479). -/
def build_select (b : MySQLQueryBuilder) : Except Error String :=
  let sql := "SELECT " ++ (if b.columns.isEmpty then "*" else joinSep ", " b.columns)
  let sql := match b.table with
    | some t => sql ++ " FROM " ++ t
    | none => sql
  let sql := if b.where_clauses.isEmpty then sql
    else sql ++ " WHERE " ++ joinSep " AND " b.where_clauses
  let sql := if b.order_by.isEmpty then sql
    else sql ++ " ORDER BY " ++
      joinSep ", " (b.order_by.map fun p => p.1 ++ " " ++ p.2.render)
  let sql := match b.limit with
    | some n => sql ++ " LIMIT " ++ toString n
    | none => sql
  let sql := match b.offset with
    | some n => sql ++ " OFFSET " ++ toString n
    | none => sql
  .ok sql

/-- `build_insert` (src/src/query/builder.rs:519): no RETURNING clause. -/
def build_insert (b : MySQLQueryBuilder) : Except Error String :=
  match b.insert_table with
  | none => .error (.QueryError "No table specified for INSERT")
  | some table =>
    if b.insert_columns.isEmpty then
      .error (.QueryError "No columns specified for INSERT")
    else if b.insert_values.isEmpty then
      .error (.QueryError "No values specified for INSERT")
    else
      .ok ("INSERT INTO " ++ table ++ " (" ++ joinSep ", " b.insert_columns
        ++ ") VALUES "
        ++ joinSep ", " (b.insert_values.map fun row => "(" ++ joinSep ", " row ++ ")"))

/-- `build_update` (src/src/query/builder.rs:553): no RETURNING clause. -/
def build_update (b : MySQLQueryBuilder) : Except Error String :=
  match b.update_table with
  | none => .error (.QueryError "No table specified for UPDATE")
  | some table =>
    if b.update_sets.isEmpty then
      .error (.QueryError "No SET clauses specified for UPDATE")
    else
      let sql := "UPDATE " ++ table ++ " SET " ++
        joinSep ", " (b.update_sets.map fun p => p.1 ++ " = " ++ p.2)
      let sql := if b.where_clauses.isEmpty then sql
        else sql ++ " WHERE " ++ joinSep " AND " b.where_clauses
      .ok sql

/-- `build_delete` (src/src/query/builder.rs:582): no RETURNING clause. -/
def build_delete (b : MySQLQueryBuilder) : Except Error String :=
  match b.delete_table with
  | none => .error (.QueryError "No table specified for DELETE")
  | some table =>
    let sql := "DELETE FROM " ++ table
    let sql := if b.where_clauses.isEmpty then sql
      else sql ++ " WHERE " ++ joinSep " AND " b.where_clauses
    .ok sql

/-- `build` (src/src/query/builder.rs:665). -/
def build (b : MySQLQueryBuilder) : Except Error String :=
  match b.query_type with
  | .Select => b.build_select
  | .Insert => b.build_insert
  | .Update => b.build_update
  | .Delete => b.build_delete

/-- `reset` (src/src/query/builder.rs:674). -/
def reset (_b : MySQLQueryBuilder) : MySQLQueryBuilder where
  query_type := .Select
  columns := []
  table := none
  where_clauses := []
  order_by := []
  limit := none
  offset := none
  insert_table := none
  insert_columns := []
  insert_values := []
  update_table := none
  update_sets := []
  delete_table := none

/-- `returning` (src/src/query/builder.rs:660): "MySQL doesn't support
RETURNING, silently ignore". -/
def returning (b : MySQLQueryBuilder) (_cols : List String) : MySQLQueryBuilder :=
  b

end MySQLQueryBuilder

/-! ## Call sequences over the `src` builders

The trait methods of `QueryBuilder` (src/src/query/mod.rs) that
`SQLiteQueryBuilder` implements, reified so that arbitrary interleavings can be
quantified over. -/

/-- One mutating call on the `src/src/query/builder.rs` builders. -/
inductive Call
  | select (cols : List String)
  | fromTable (t : String)
  | where_clause (c : String)
  | order_by (c : String) (d : OrderDirection)
  | limit (n : Nat)
  | offset (n : Nat)
  | insert_into (t : String) (cols : List String)
  | values (vs : List String)
  | update (t : String)
  | set (c v : String)
  | delete_from (t : String)
  | returning (cols : List String)
deriving DecidableEq, Repr

/-- Apply one call to a `SQLiteQueryBuilder`, exactly as the corresponding
method in src/src/query/builder.rs:350-424 does. -/
def applySQLite (b : SQLiteQueryBuilder) : Call → SQLiteQueryBuilder
  | .select cols => b.select cols
  | .fromTable t => b.fromTable t
  | .where_clause c => b.where_clause c
  | .order_by c d => b.orderBy c d
  | .limit n => b.setLimit n
  | .offset n => b.setOffset n
  | .insert_into t cols => b.insert_into t cols
  | .values vs => b.values vs
  | .update t => b.update t
  | .set c v => b.set c v
  | .delete_from t => b.delete_from t
  | .returning cols => b.returning cols

/-- Apply a sequence of calls left to right (fluent chaining). -/
def applySQLiteCalls (cs : List Call) (b : SQLiteQueryBuilder) : SQLiteQueryBuilder :=
  cs.foldl applySQLite b

/-- The statement kind an entry-point call switches to
(src/src/query/builder.rs:352,383,396,407); `none` for non-entry calls. -/
def Call.entryKind : Call → Option QueryType
  | .select _ => some .Select
  | .insert_into _ _ => some .Insert
  | .update _ => some .Update
  | .delete_from _ => some .Delete
  | _ => none

/-- The kind set by the last entry-point call of the list, if any. -/
def lastEntryKind : List Call → Option QueryType
  | [] => none
  | c :: cs =>
    match lastEntryKind cs with
    | some k => some k
    | none => c.entryKind

/-- Apply one call to a `MySQLQueryBuilder`, exactly as the corresponding
method in src/src/query/builder.rs:598-689 does (`returning` is a no-op). -/
def applyMySQL (b : MySQLQueryBuilder) : Call → MySQLQueryBuilder
  | .select cols => { b with query_type := .Select, columns := cols }
  | .fromTable t => { b with table := some t }
  | .where_clause c => { b with where_clauses := b.where_clauses ++ [c] }
  | .order_by c d => { b with order_by := b.order_by ++ [(c, d)] }
  | .limit n => { b with limit := some n }
  | .offset n => { b with offset := some n }
  | .insert_into t cols =>
    { b with query_type := .Insert, insert_table := some t, insert_columns := cols }
  | .values vs => { b with insert_values := b.insert_values ++ [vs] }
  | .update t => { b with query_type := .Update, update_table := some t }
  | .set c v => { b with update_sets := b.update_sets ++ [(c, v)] }
  | .delete_from t => { b with query_type := .Delete, delete_table := some t }
  | .returning cols => b.returning cols

/-- Apply a sequence of calls to a `MySQLQueryBuilder`. -/
def applyMySQLCalls (cs : List Call) (b : MySQLQueryBuilder) : MySQLQueryBuilder :=
  cs.foldl applyMySQL b

/-- The per-kind render functions of `SQLiteQueryBuilder::build`
(src/src/query/builder.rs:417-424), indexed by kind. -/
def buildOfKindSQLite (k : QueryType) (b : SQLiteQueryBuilder) : Except Error String :=
  match k with
  | .Select => b.build_select
  | .Insert => b.build_insert
  | .Update => b.build_update
  | .Delete => b.build_delete

/-- The per-kind render functions of `MySQLQueryBuilder::build`
(src/src/query/builder.rs:665-672), indexed by kind. -/
def buildOfKindMySQL (k : QueryType) (b : MySQLQueryBuilder) : Except Error String :=
  match k with
  | .Select => b.build_select
  | .Insert => b.build_insert
  | .Update => b.build_update
  | .Delete => b.build_delete

/-- Whether the first character list is an initial segment of the second. -/
def startsWith : List Char → List Char → Bool
  | [], _ => true
  | _ :: _, [] => false
  | a :: as, b :: bs => (a = b) && startsWith as bs

/-- Whether the first character list occurs contiguously in the second. -/
def containsSeq (needle : List Char) : List Char → Bool
  | [] => startsWith needle []
  | b :: bs => startsWith needle (b :: bs) || containsSeq needle bs

/-- Whether a SQL string contains a RETURNING clause keyword. -/
def containsReturning (s : String) : Bool :=
  containsSeq " RETURNING ".data s.data

/-! ## Row materialization (src/src/utils.rs and src/src/backend/sqlite.rs)

A fetched cell is modelled by the outcomes of the driver's `try_get` decodings:
each `asT` field is `some v` exactly when `row.try_get::<T>(i)` would return
`Ok(v)`.  Float payloads are carried as their 64-bit representation. -/

/-- The dynamically-typed value a cell is materialized to (a `serde_json::Value`
leaf; numbers keep their integer/float distinction as serde does internally). -/
inductive JsonValue
  | null
  | bool (b : Bool)
  | int (v : Int)
  | float (bits : Nat)
  | str (s : String)
deriving DecidableEq, Repr

/-- Decoding outcomes of one SQLite cell. -/
structure SqliteCell where
  asI64 : Option Int
  asF64 : Option Nat
  asBool : Option Bool
  asString : Option String
  asBlob : Option (List Nat)
deriving DecidableEq, Repr

/-- Decoding outcomes of one MySQL cell (`mysql_row_to_json` additionally tries
`i32` after `i64`). -/
structure MySqlCell where
  asI64 : Option Int
  asI32 : Option Int
  asF64 : Option Nat
  asBool : Option Bool
  asString : Option String
  asBlob : Option (List Nat)
deriving DecidableEq, Repr

/-- The charset of `base64_encode` (src/src/utils.rs:57). -/
def base64Charset : List Char :=
  "ABCDEFGHIJKLMNOPQRSTUVWXYZabcdefghijklmnopqrstuvwxyz0123456789+/".data

/-- `base64_encode` (src/src/utils.rs:56): processes the byte list in chunks of
three, exactly as the source's `chunks(3)` loop (bytes are `Nat` < 256). -/
def base64_encode : List Nat → String
  | [] => ""
  | [b1] =>
    ⟨[base64Charset.getD (b1 >>> 2) 'A',
      base64Charset.getD (((b1 &&& 0x03) <<< 4) ||| (0 >>> 4)) 'A',
      '=', '=']⟩
  | [b1, b2] =>
    ⟨[base64Charset.getD (b1 >>> 2) 'A',
      base64Charset.getD (((b1 &&& 0x03) <<< 4) ||| (b2 >>> 4)) 'A',
      base64Charset.getD (((b2 &&& 0x0f) <<< 2) ||| (0 >>> 6)) 'A',
      '=']⟩
  | b1 :: b2 :: b3 :: rest =>
    (⟨[base64Charset.getD (b1 >>> 2) 'A',
       base64Charset.getD (((b1 &&& 0x03) <<< 4) ||| (b2 >>> 4)) 'A',
       base64Charset.getD (((b2 &&& 0x0f) <<< 2) ||| (b3 >>> 6)) 'A',
       base64Charset.getD (b3 &&& 0x3f) 'A']⟩ : String)
      ++ base64_encode rest

/-- The per-cell decoding chain of `sqlite_row_to_json` (src/src/utils.rs:9-21):
`i64`, then `f64`, then `bool`, then `String`, then `Vec<u8>` (base64-encoded),
else `Null`. -/
def sqlite_cell_to_json (c : SqliteCell) : JsonValue :=
  match c.asI64 with
  | some v => .int v
  | none =>
    match c.asF64 with
    | some v => .float v
    | none =>
      match c.asBool with
      | some v => .bool v
      | none =>
        match c.asString with
        | some v => .str v
        | none =>
          match c.asBlob with
          | some v => .str (base64_encode v)
          | none => .null

/-- The per-cell decoding chain of `mysql_row_to_json` (src/src/utils.rs:34-48):
`i64`, then `i32`, then `f64`, then `bool`, then `String`, then `Vec<u8>`
(base64-encoded), else `Null`. -/
def mysql_cell_to_json (c : MySqlCell) : JsonValue :=
  match c.asI64 with
  | some v => .int v
  | none =>
    match c.asI32 with
    | some v => .int v
    | none =>
      match c.asF64 with
      | some v => .float v
      | none =>
        match c.asBool with
        | some v => .bool v
        | none =>
          match c.asString with
          | some v => .str v
          | none =>
            match c.asBlob with
            | some v => .str (base64_encode v)
            | none => .null

/-- The per-cell decoding chain of the backend fetch paths
(src/src/backend/sqlite.rs:108-118 and the sibling blocks): `i64`, `f64`,
`bool`, `String`, else `Null` — with no blob step. -/
def backend_sqlite_cell_to_json (c : SqliteCell) : JsonValue :=
  match c.asI64 with
  | some v => .int v
  | none =>
    match c.asF64 with
    | some v => .float v
    | none =>
      match c.asBool with
      | some v => .bool v
      | none =>
        match c.asString with
        | some v => .str v
        | none => .null

/-- `sqlite_row_to_json` (src/src/utils.rs:4): every cell of the row is decoded
by the chain, keyed by its column name. -/
def sqlite_row_to_json (row : List (String × SqliteCell)) : List (String × JsonValue) :=
  row.map fun p => (p.1, sqlite_cell_to_json p.2)

/-- `mysql_row_to_json` (src/src/utils.rs:29). -/
def mysql_row_to_json (row : List (String × MySqlCell)) : List (String × JsonValue) :=
  row.map fun p => (p.1, mysql_cell_to_json p.2)

/-! ## Transactions (src/src/transaction/mod.rs)

The underlying `sqlx` sessions are opaque; the outcome of each driver-level
operation is supplied as an oracle argument, and a driver failure surfaces
through `?` as `Error.DatabaseError` (the `#[from] sqlx::Error` conversion in
src/src/error.rs:28). -/

/-- `TransactionInner` (src/src/transaction/mod.rs:6), over opaque session
types. -/
inductive TransactionInner (σ τ : Type)
  | SQLite (s : σ)
  | MySQL (s : τ)

/-- `Transaction` (src/src/transaction/mod.rs:12): `inner` is `none` once the
transaction has been consumed. -/
structure Transaction (σ τ : Type) where
  inner : Option (TransactionInner σ τ)

namespace Transaction

variable {σ τ : Type}

/-- Lift a driver outcome through the `?` operator (`From<sqlx::Error>`). -/
def liftDriver {α : Type} : Except SqlxError α → Except Error α
  | .ok a => .ok a
  | .error e => .error (.DatabaseError e)

/-- `execute` (src/src/transaction/mod.rs:65), with the driver's
`sqlx::query(sql).execute(...)` outcome abstracted per inner variant. -/
def execute (tx : Transaction σ τ) (sql : String)
    (dbS : σ → String → Except SqlxError Nat)
    (dbM : τ → String → Except SqlxError Nat) : Except Error Nat :=
  match tx.inner with
  | some (.SQLite s) => liftDriver (dbS s sql)
  | some (.MySQL s) => liftDriver (dbM s sql)
  | none => .error (.QueryError "Transaction already completed")

/-- `execute_params` (src/src/transaction/mod.rs:86). -/
def execute_params (tx : Transaction σ τ) (sql : String) (params : List QueryValue)
    (dbS : σ → String → List QueryValue → Except SqlxError Nat)
    (dbM : τ → String → List QueryValue → Except SqlxError Nat) : Except Error Nat :=
  match tx.inner with
  | some (.SQLite s) => liftDriver (dbS s sql params)
  | some (.MySQL s) => liftDriver (dbM s sql params)
  | none => .error (.QueryError "Transaction already completed")

/-- `fetch_all` (src/src/transaction/mod.rs:130): rows fetched by the driver
are materialized by the row-to-JSON conversions of src/src/utils.rs. -/
def fetch_all (tx : Transaction σ τ) (sql : String)
    (dbS : σ → String → Except SqlxError (List (List (String × SqliteCell))))
    (dbM : τ → String → Except SqlxError (List (List (String × MySqlCell)))) :
    Except Error (List (List (String × JsonValue))) :=
  match tx.inner with
  | some (.SQLite s) => liftDriver ((dbS s sql).map fun rows => rows.map sqlite_row_to_json)
  | some (.MySQL s) => liftDriver ((dbM s sql).map fun rows => rows.map mysql_row_to_json)
  | none => .error (.QueryError "Transaction already completed")

/-- `fetch_all_params` (src/src/transaction/mod.rs:151). -/
def fetch_all_params (tx : Transaction σ τ) (sql : String) (params : List QueryValue)
    (dbS : σ → String → List QueryValue → Except SqlxError (List (List (String × SqliteCell))))
    (dbM : τ → String → List QueryValue → Except SqlxError (List (List (String × MySqlCell)))) :
    Except Error (List (List (String × JsonValue))) :=
  match tx.inner with
  | some (.SQLite s) =>
    liftDriver ((dbS s sql params).map fun rows => rows.map sqlite_row_to_json)
  | some (.MySQL s) =>
    liftDriver ((dbM s sql params).map fun rows => rows.map mysql_row_to_json)
  | none => .error (.QueryError "Transaction already completed")

/-- `fetch_one` (src/src/transaction/mod.rs:195). -/
def fetch_one (tx : Transaction σ τ) (sql : String)
    (dbS : σ → String → Except SqlxError (Option (List (String × SqliteCell))))
    (dbM : τ → String → Except SqlxError (Option (List (String × MySqlCell)))) :
    Except Error (Option (List (String × JsonValue))) :=
  match tx.inner with
  | some (.SQLite s) => liftDriver ((dbS s sql).map fun r => r.map sqlite_row_to_json)
  | some (.MySQL s) => liftDriver ((dbM s sql).map fun r => r.map mysql_row_to_json)
  | none => .error (.QueryError "Transaction already completed")

/-- `fetch_one_params` (src/src/transaction/mod.rs:216). -/
def fetch_one_params (tx : Transaction σ τ) (sql : String) (params : List QueryValue)
    (dbS : σ → String → List QueryValue → Except SqlxError (Option (List (String × SqliteCell))))
    (dbM : τ → String → List QueryValue → Except SqlxError (Option (List (String × MySqlCell)))) :
    Except Error (Option (List (String × JsonValue))) :=
  match tx.inner with
  | some (.SQLite s) => liftDriver ((dbS s sql params).map fun r => r.map sqlite_row_to_json)
  | some (.MySQL s) => liftDriver ((dbM s sql params).map fun r => r.map mysql_row_to_json)
  | none => .error (.QueryError "Transaction already completed")

/-- `commit` (src/src/transaction/mod.rs:34): if `inner` was already taken the
body is skipped and `Ok(())` is returned. -/
def commit (tx : Transaction σ τ)
    (dbS : σ → Except SqlxError Unit) (dbM : τ → Except SqlxError Unit) :
    Except Error Unit :=
  match tx.inner with
  | some (.SQLite s) => liftDriver (dbS s)
  | some (.MySQL s) => liftDriver (dbM s)
  | none => .ok ()

/-- `rollback` (src/src/transaction/mod.rs:49). -/
def rollback (tx : Transaction σ τ)
    (dbS : σ → Except SqlxError Unit) (dbM : τ → Except SqlxError Unit) :
    Except Error Unit :=
  match tx.inner with
  | some (.SQLite s) => liftDriver (dbS s)
  | some (.MySQL s) => liftDriver (dbM s)
  | none => .ok ()

end Transaction

/-! ## Placeholders

Both supported dialects use the positional placeholder token `?` (as the
migration SQL in src/src/migration/mod.rs:352-353 and the raw statements in
src/tests/transaction_test.rs show). -/

/-- Number of placeholder tokens in a character list. -/
def countQs : List Char → Nat
  | [] => 0
  | c :: cs => (if c = '?' then 1 else 0) + countQs cs

/-- Number of placeholder tokens in a SQL string. -/
def countQ (s : String) : Nat := countQs s.data

/-- Substitute strings for the placeholder tokens of a character list, left to
right; leftover placeholders stay put, leftover substitutions are dropped. -/
def substQs : List Char → List String → List Char
  | [], _ => []
  | c :: cs, ps =>
    if c = '?' then
      match ps with
      | p :: ps1 => p.data ++ substQs cs ps1
      | [] => c :: substQs cs []
    else c :: substQs cs ps

/-- Substitute strings for the placeholders of a SQL string, left to right. -/
def substQ (s : String) (ps : List String) : String := ⟨substQs s.data ps⟩

/-- A decimal digit character. -/
def digitChar (n : Nat) : Char :=
  if n = 0 then '0' else if n = 1 then '1' else if n = 2 then '2'
  else if n = 3 then '3' else if n = 4 then '4' else if n = 5 then '5'
  else if n = 6 then '6' else if n = 7 then '7' else if n = 8 then '8' else '9'

/-- Decimal rendering of a `Nat` (digits only), used for LIMIT/OFFSET in the
spec-modelled builder; fuel-structured so it reduces in the kernel. -/
def natLitCore : Nat → Nat → List Char
  | 0, _ => []
  | fuel + 1, n =>
    if n < 10 then [digitChar n]
    else natLitCore fuel (n / 10) ++ [digitChar (n % 10)]

/-- Decimal rendering of a `Nat` as a string. -/
def natLit (n : Nat) : String := ⟨natLitCore (n + 1) n⟩

/-- A literal spelling of a bound value, used only to express the
placeholder/parameter correspondence (substituting `litParam` of each parameter
into the placeholders must reproduce the statement with each value at its own
call site). -/
def litParam : QueryValue → String
  | .Null => "NULL"
  | .Bool b => if b then "TRUE" else "FALSE"
  | .I32 v => toString v
  | .I64 v => toString v
  | .F64 bits => "F64#" ++ natLit bits
  | .String s => "'" ++ s ++ "'"

/-! ## The dialect-parameterized builder with value-accepting methods

Modelled from the spec: the `QueryBuilderEnum::new(dialect)` builder whose
value-accepting methods `where_eq`, `values_params`, `set_param` and whose
`params()` accessor are declared in `src/src/query/mod.rs` and exercised by
`src/tests/crud_test.rs`, `src/src/model/crud.rs` and
`src/examples/query_builder_demo.rs`, but whose implementation is absent from
`src` (src/src/query/builder.rs holds an earlier parameterless
implementation).  Per spec §3 the state is one record holding the statement
shape plus "an ordered parameter list shared across all of the above whenever a
value is bound rather than inlined"; per §4.1 "every method that accepts a
`Value` appends that value to the parameter list and substitutes a single
opaque placeholder token at the call site". -/
structure ParamBuilder where
  dialect : Dialect
  query_type : QueryType
  columns : List String
  table : Option String
  joins : List (JoinType × String × String)
  where_clauses : List String
  group_by : List String
  having : Option String
  order_by : List (String × OrderDirection)
  limit : Option Nat
  offset : Option Nat
  distinct : Bool
  insert_table : Option String
  insert_columns : List String
  insert_values : List (List String)
  update_table : Option String
  update_sets : List (String × String)
  delete_table : Option String
  returning_columns : List String
  params : List QueryValue
deriving DecidableEq, Repr

/-- Modelled from the spec: whether the dialect honors RETURNING (spec §2 and
the capability flags in src/src/backend/sqlite.rs:197 /
src/src/backend/mysql.rs:107). -/
def Dialect.supportsReturning : Dialect → Bool
  | .SQLite => true
  | .MySQL => false

namespace ParamBuilder

/-- Modelled from the spec: a fresh builder for a dialect (every field at its
empty/initial value, spec §3 "created fresh or by explicit reset"). -/
def new (d : Dialect) : ParamBuilder where
  dialect := d
  query_type := .Select
  columns := []
  table := none
  joins := []
  where_clauses := []
  group_by := []
  having := none
  order_by := []
  limit := none
  offset := none
  distinct := false
  insert_table := none
  insert_columns := []
  insert_values := []
  update_table := none
  update_sets := []
  delete_table := none
  returning_columns := []
  params := []

/-- Modelled from the spec: `where_eq(column, value)` appends the value to the
parameter list and a `column = ?` fragment to the WHERE list. -/
def where_eq (b : ParamBuilder) (col : String) (v : QueryValue) : ParamBuilder :=
  { b with where_clauses := b.where_clauses ++ [col ++ " = ?"],
           params := b.params ++ [v] }

/-- Modelled from the spec: `values_params(values)` appends one value-row of
placeholders and all the values to the parameter list, in order. -/
def values_params (b : ParamBuilder) (vs : List QueryValue) : ParamBuilder :=
  { b with insert_values := b.insert_values ++ [vs.map fun _ => "?"],
           params := b.params ++ vs }

/-- Modelled from the spec: `set_param(column, value)` appends a
`column = ?` SET assignment and the value to the parameter list. -/
def set_param (b : ParamBuilder) (col : String) (v : QueryValue) : ParamBuilder :=
  { b with update_sets := b.update_sets ++ [(col, "?")],
           params := b.params ++ [v] }

/-- Modelled from the spec: raw-text `where_clause` (the unsafe escape hatch). -/
def where_clause (b : ParamBuilder) (c : String) : ParamBuilder :=
  { b with where_clauses := b.where_clauses ++ [c] }

/-- Modelled from the spec: raw-text `values`. -/
def values (b : ParamBuilder) (vs : List String) : ParamBuilder :=
  { b with insert_values := b.insert_values ++ [vs] }

/-- Modelled from the spec: raw-text `set`. -/
def set (b : ParamBuilder) (col v : String) : ParamBuilder :=
  { b with update_sets := b.update_sets ++ [(col, v)] }

/-- Modelled from the spec: `select` (last-writer-wins statement kind). -/
def select (b : ParamBuilder) (cols : List String) : ParamBuilder :=
  { b with query_type := .Select, columns := cols }

/-- Modelled from the spec: `from`. -/
def fromTable (b : ParamBuilder) (t : String) : ParamBuilder :=
  { b with table := some t }

/-- Modelled from the spec: `join(table, on, kind)`, appended in call order. -/
def join (b : ParamBuilder) (jt : JoinType) (t onp : String) : ParamBuilder :=
  { b with joins := b.joins ++ [(jt, t, onp)] }

/-- Modelled from the spec: `group_by` the method (named `groupBy` to avoid
clashing with the field). -/
def groupBy (b : ParamBuilder) (cols : List String) : ParamBuilder :=
  { b with group_by := b.group_by ++ cols }

/-- Modelled from the spec: `having` the method (named `setHaving` to avoid
clashing with the field). -/
def setHaving (b : ParamBuilder) (c : String) : ParamBuilder :=
  { b with having := some c }

/-- Modelled from the spec: `order_by`. -/
def orderBy (b : ParamBuilder) (c : String) (d : OrderDirection) : ParamBuilder :=
  { b with order_by := b.order_by ++ [(c, d)] }

/-- Modelled from the spec: `limit`. -/
def setLimit (b : ParamBuilder) (n : Nat) : ParamBuilder :=
  { b with limit := some n }

/-- Modelled from the spec: `offset`. -/
def setOffset (b : ParamBuilder) (n : Nat) : ParamBuilder :=
  { b with offset := some n }

/-- Modelled from the spec: `distinct`. -/
def setDistinct (b : ParamBuilder) : ParamBuilder :=
  { b with distinct := true }

/-- Modelled from the spec: `insert_into` (last-writer-wins statement kind). -/
def insert_into (b : ParamBuilder) (t : String) (cols : List String) : ParamBuilder :=
  { b with query_type := .Insert, insert_table := some t, insert_columns := cols }

/-- Modelled from the spec: `update` (last-writer-wins statement kind). -/
def update (b : ParamBuilder) (t : String) : ParamBuilder :=
  { b with query_type := .Update, update_table := some t }

/-- Modelled from the spec: `delete_from` (last-writer-wins statement kind). -/
def delete_from (b : ParamBuilder) (t : String) : ParamBuilder :=
  { b with query_type := .Delete, delete_table := some t }

/-- Modelled from the spec: `returning` records the columns; the call is always
accepted, and rendering is conditional on dialect support (spec §4.1). -/
def returning (b : ParamBuilder) (cols : List String) : ParamBuilder :=
  { b with returning_columns := cols }

/-- The RETURNING suffix: rendered only when the dialect supports it and the
column list is non-empty (spec §4.1 capability degradation). -/
def returningSuffix (b : ParamBuilder) : String :=
  if Dialect.supportsReturning b.dialect && !b.returning_columns.isEmpty then
    " RETURNING " ++ joinSep ", " b.returning_columns
  else ""

/-- The optional WHERE segment (fragments conjoined with AND, spec §4.1). -/
def whereSeg (b : ParamBuilder) : String :=
  if b.where_clauses.isEmpty then ""
  else " WHERE " ++ joinSep " AND " b.where_clauses

/-- The joins segment, in call order (spec §4.1). -/
def joinsSeg (b : ParamBuilder) : String :=
  String.join (b.joins.map fun j => " " ++ j.1.render ++ " " ++ j.2.1 ++ " ON " ++ j.2.2)

/-- The optional GROUP BY segment. -/
def groupSeg (b : ParamBuilder) : String :=
  if b.group_by.isEmpty then "" else " GROUP BY " ++ joinSep ", " b.group_by

/-- The optional HAVING segment. -/
def havingSeg (b : ParamBuilder) : String :=
  match b.having with
  | some h => " HAVING " ++ h
  | none => ""

/-- The optional ORDER BY segment. -/
def orderSeg (b : ParamBuilder) : String :=
  if b.order_by.isEmpty then ""
  else " ORDER BY " ++ joinSep ", " (b.order_by.map fun p => p.1 ++ " " ++ p.2.render)

/-- The optional LIMIT segment. -/
def limitSeg (b : ParamBuilder) : String :=
  match b.limit with
  | some n => " LIMIT " ++ natLit n
  | none => ""

/-- The optional OFFSET segment. -/
def offsetSeg (b : ParamBuilder) : String :=
  match b.offset with
  | some n => " OFFSET " ++ natLit n
  | none => ""

/-- The SET segment of an UPDATE. -/
def setSeg (b : ParamBuilder) : String :=
  joinSep ", " (b.update_sets.map fun p => p.1 ++ " = " ++ p.2)

/-- The VALUES row list of an INSERT. -/
def valuesSeg (b : ParamBuilder) : String :=
  joinSep ", " (b.insert_values.map fun row => "(" ++ joinSep ", " row ++ ")")

/-- Modelled from the spec: SELECT rendering, clause order fixed by §4.1:
`SELECT [DISTINCT] <cols|*> FROM <table> [<join>...] [WHERE ...] [GROUP BY ...]
[HAVING ...] [ORDER BY ...] [LIMIT n] [OFFSET n]`; a missing table is a
structural "cannot render" error (§4.1, §7). -/
def build_select (b : ParamBuilder) : Except Error String :=
  match b.table with
  | none => .error (.QueryError "No table specified for SELECT")
  | some t =>
    .ok ("SELECT " ++ (if b.distinct then "DISTINCT " else "")
      ++ (if b.columns.isEmpty then "*" else joinSep ", " b.columns)
      ++ " FROM " ++ t ++ b.joinsSeg
      ++ b.whereSeg ++ b.groupSeg ++ b.havingSeg ++ b.orderSeg
      ++ b.limitSeg ++ b.offsetSeg)

/-- Modelled from the spec: INSERT rendering
(`INSERT INTO table (cols) VALUES (row1), (row2), ... [RETURNING cols]`) with
the structural errors of §4.1/§7. -/
def build_insert (b : ParamBuilder) : Except Error String :=
  match b.insert_table with
  | none => .error (.QueryError "No table specified for INSERT")
  | some t =>
    if b.insert_columns.isEmpty then
      .error (.QueryError "No columns specified for INSERT")
    else if b.insert_values.isEmpty then
      .error (.QueryError "No values specified for INSERT")
    else
      .ok ("INSERT INTO " ++ t ++ " (" ++ joinSep ", " b.insert_columns
        ++ ") VALUES " ++ b.valuesSeg ++ b.returningSuffix)

/-- Modelled from the spec: UPDATE rendering
(`UPDATE table SET col = val, ... [WHERE ...] [RETURNING cols]`). -/
def build_update (b : ParamBuilder) : Except Error String :=
  match b.update_table with
  | none => .error (.QueryError "No table specified for UPDATE")
  | some t =>
    if b.update_sets.isEmpty then
      .error (.QueryError "No SET clauses specified for UPDATE")
    else
      .ok ("UPDATE " ++ t ++ " SET " ++ b.setSeg ++ b.whereSeg ++ b.returningSuffix)

/-- Modelled from the spec: DELETE rendering
(`DELETE FROM table [WHERE ...] [RETURNING cols]`). -/
def build_delete (b : ParamBuilder) : Except Error String :=
  match b.delete_table with
  | none => .error (.QueryError "No table specified for DELETE")
  | some t =>
    .ok ("DELETE FROM " ++ t ++ b.whereSeg ++ b.returningSuffix)

/-- Modelled from the spec: `build()` dispatches on the statement kind. -/
def build (b : ParamBuilder) : Except Error String :=
  match b.query_type with
  | .Select => b.build_select
  | .Insert => b.build_insert
  | .Update => b.build_update
  | .Delete => b.build_delete

end ParamBuilder

/-- One call on the spec-modelled dialect-parameterized builder (all methods of
the `QueryBuilder` trait, src/src/query/mod.rs:10-94). -/
inductive ParamCall
  | select (cols : List String)
  | fromTable (t : String)
  | where_clause (c : String)
  | where_eq (col : String) (v : QueryValue)
  | order_by (c : String) (d : OrderDirection)
  | limit (n : Nat)
  | offset (n : Nat)
  | insert_into (t : String) (cols : List String)
  | values (vs : List String)
  | values_params (vs : List QueryValue)
  | update (t : String)
  | set (col v : String)
  | set_param (col : String) (v : QueryValue)
  | delete_from (t : String)
  | returning (cols : List String)
  | join (jt : JoinType) (t : String) (onp : String)
  | group_by (cols : List String)
  | having (c : String)
  | distinct
deriving DecidableEq, Repr

/-- Apply one call to the spec-modelled builder. -/
def applyParam (b : ParamBuilder) : ParamCall → ParamBuilder
  | .select cols => b.select cols
  | .fromTable t => b.fromTable t
  | .where_clause c => b.where_clause c
  | .where_eq col v => b.where_eq col v
  | .order_by c d => b.orderBy c d
  | .limit n => b.setLimit n
  | .offset n => b.setOffset n
  | .insert_into t cols => b.insert_into t cols
  | .values vs => b.values vs
  | .values_params vs => b.values_params vs
  | .update t => b.update t
  | .set col v => b.set col v
  | .set_param col v => b.set_param col v
  | .delete_from t => b.delete_from t
  | .returning cols => b.returning cols
  | .join jt t onp => b.join jt t onp
  | .group_by cols => b.groupBy cols
  | .having c => b.setHaving c
  | .distinct => b.setDistinct

/-- Apply a call sequence left to right. -/
def applyParamCalls (cs : List ParamCall) (b : ParamBuilder) : ParamBuilder :=
  cs.foldl applyParam b

/-- The inline interpretation of the same calls: value-accepting methods embed
the literal spelling of the value at the call site instead of binding a
placeholder.  Used only to state where each placeholder's value belongs. -/
def applyInline (b : ParamBuilder) : ParamCall → ParamBuilder
  | .where_eq col v => { b with where_clauses := b.where_clauses ++ [col ++ " = " ++ litParam v] }
  | .values_params vs => { b with insert_values := b.insert_values ++ [vs.map litParam] }
  | .set_param col v => { b with update_sets := b.update_sets ++ [(col, litParam v)] }
  | c => applyParam b c

/-- Apply a call sequence in the inline interpretation. -/
def applyInlineCalls (cs : List ParamCall) (b : ParamBuilder) : ParamBuilder :=
  cs.foldl applyInline b

/-- A string free of placeholder tokens. -/
def noQ (s : String) : Bool := countQ s = 0

/-- Calls that supply values only through the value-accepting methods and whose
raw text (identifiers, predicates) contains no stray placeholder token. -/
def SafeCall : ParamCall → Bool
  | .select cols => cols.all noQ
  | .fromTable t => noQ t
  | .where_clause _ => false
  | .where_eq col _ => noQ col
  | .order_by c _ => noQ c
  | .limit _ => true
  | .offset _ => true
  | .insert_into t cols => noQ t && cols.all noQ
  | .values _ => false
  | .values_params _ => true
  | .update t => noQ t
  | .set _ _ => false
  | .set_param col _ => noQ col
  | .delete_from t => noQ t
  | .returning cols => cols.all noQ
  | .join _ t onp => noQ t && noQ onp
  | .group_by cols => cols.all noQ
  | .having c => noQ c
  | .distinct => true

/-- Whether a value-accepting call's clause is rendered by the given statement
kind (WHERE renders for SELECT/UPDATE/DELETE, value-rows for INSERT, SET for
UPDATE); non-value calls are unconstrained. -/
def RendersInKind : ParamCall → QueryType → Bool
  | .where_eq _ _, k => k != .Insert
  | .values_params _, k => k == .Insert
  | .set_param _ _, k => k == .Update
  | _, _ => true

/-- No `set_param` occurs in the list. -/
def noSetParam (cs : List ParamCall) : Bool :=
  cs.all fun c => match c with
    | .set_param _ _ => false
    | _ => true

/-- Value-accepting calls occur in clause-render order: no `set_param` after a
`where_eq` (SET assignments render before WHERE in an UPDATE). -/
def valueOrdered : List ParamCall → Bool
  | [] => true
  | .where_eq _ _ :: cs => noSetParam cs && valueOrdered cs
  | _ :: cs => valueOrdered cs

/-- The (column, value) pairs supplied by the `where_eq` calls of a list. -/
def wherePairs : List ParamCall → List (String × QueryValue)
  | [] => []
  | .where_eq col v :: cs => (col, v) :: wherePairs cs
  | _ :: cs => wherePairs cs

/-- The (column, value) pairs supplied by the `set_param` calls of a list. -/
def setPairs : List ParamCall → List (String × QueryValue)
  | [] => []
  | .set_param col v :: cs => (col, v) :: setPairs cs
  | _ :: cs => setPairs cs

/-- The value-rows supplied by the `values_params` calls of a list. -/
def valueRows : List ParamCall → List (List QueryValue)
  | [] => []
  | .values_params vs :: cs => vs :: valueRows cs
  | _ :: cs => valueRows cs

/-- All values bound by the value-accepting calls of a list, in call order. -/
def callParams : List ParamCall → List QueryValue
  | [] => []
  | .where_eq _ v :: cs => v :: callParams cs
  | .set_param _ v :: cs => v :: callParams cs
  | .values_params vs :: cs => vs ++ callParams cs
  | _ :: cs => callParams cs

/-! ## Concrete states used by counterexamples and witnesses -/

/-- A fully populated `SQLiteQueryBuilder`: every field holds data. -/
def populatedBuilder : SQLiteQueryBuilder where
  query_type := .Insert
  columns := ["id", "name"]
  table := some "users"
  where_clauses := ["age > 18"]
  order_by := [("name", .Asc)]
  limit := some 10
  offset := some 5
  insert_table := some "users"
  insert_columns := ["name"]
  insert_values := [["'Alice'"]]
  update_table := some "users"
  update_sets := [("name", "'Bob'")]
  delete_table := some "users"
  returning_columns := ["id"]

/-- A SELECT-kind SQLite builder on which `returning(["id"])` has been called. -/
def selectWithReturning : SQLiteQueryBuilder :=
  (SQLiteQueryBuilder.new.fromTable "t").returning ["id"]

/-- A cell decodable only as a byte array (the two bytes of `"hi"`). -/
def blobOnlyCell : SqliteCell where
  asI64 := none
  asF64 := none
  asBool := none
  asString := none
  asBlob := some [104, 105]

/-- A safe call sequence that binds a WHERE parameter and then switches the
statement kind to INSERT, discarding the WHERE clause but not its parameter. -/
def mixedKindCalls : List ParamCall :=
  [.where_eq "a" (.I32 1), .insert_into "t" ["c"], .values_params [.I32 2]]

/-- A safe UPDATE call sequence whose `where_eq` precedes its `set_param`, the
reverse of clause render order. -/
def updateOrderCalls : List ParamCall :=
  [.update "t", .where_eq "a" (.I32 1), .set_param "b" (.I32 2)]

/-- The statement-shape fields shared verbatim by the placeholder and inline
interpretations of a call sequence (every field except the three
parameter-bearing fragment lists and the parameter list). -/
def commonShape (b : ParamBuilder) :=
  (b.dialect, b.query_type, b.columns, b.table, b.joins, b.group_by, b.having,
   b.order_by, b.limit, b.offset, b.distinct, b.insert_table, b.insert_columns,
   b.update_table, b.delete_table, b.returning_columns)

/-- All raw text reachable by the renderer outside the parameter-bearing
fragment lists is free of placeholder tokens. -/
def CleanState (b : ParamBuilder) : Prop :=
  (∀ x ∈ b.columns, countQ x = 0) ∧
  (∀ t, b.table = some t → countQ t = 0) ∧
  (∀ j ∈ b.joins, countQ (j.2.1 : String) = 0 ∧ countQ j.2.2 = 0) ∧
  (∀ x ∈ b.group_by, countQ x = 0) ∧
  (∀ h, b.having = some h → countQ h = 0) ∧
  (∀ p ∈ b.order_by, countQ (p.1 : String) = 0) ∧
  (∀ t, b.insert_table = some t → countQ t = 0) ∧
  (∀ x ∈ b.insert_columns, countQ x = 0) ∧
  (∀ t, b.update_table = some t → countQ t = 0) ∧
  (∀ t, b.delete_table = some t → countQ t = 0) ∧
  (∀ x ∈ b.returning_columns, countQ x = 0)

/-! ## Basic string lemmas -/

theorem stringExt {s t : String} (h : s.data = t.data) : s = t :=
  congrArg String.mk h

theorem string_data_append (s t : String) : (s ++ t).data = s.data ++ t.data := by
  cases s
  cases t
  rfl

theorem string_append_empty (s : String) : s ++ "" = s := by
  apply stringExt
  simp [string_data_append]

theorem string_append_assoc (a b c : String) : a ++ b ++ c = a ++ (b ++ c) := by
  apply stringExt
  simp [string_data_append]

/-! ## Claim theorems for the builders present in `src` -/

/-- Claim C9: calling `reset()` yields exactly the state of a freshly
constructed builder, for both builder implementations; consequently any call
sequence applied after a reset builds the same SQL as on a fresh builder. -/
theorem reset_equals_new :
    (∀ b : SQLiteQueryBuilder, b.reset = SQLiteQueryBuilder.new) ∧
    (∀ b : MySQLQueryBuilder, b.reset = MySQLQueryBuilder.new) ∧
    (∀ (b : SQLiteQueryBuilder) (cs : List Call),
      (applySQLiteCalls cs b.reset).build
        = (applySQLiteCalls cs SQLiteQueryBuilder.new).build) ∧
    (∀ (b : MySQLQueryBuilder) (cs : List Call),
      (applyMySQLCalls cs b.reset).build
        = (applyMySQLCalls cs MySQLQueryBuilder.new).build) :=
  ⟨fun _ => rfl, fun _ => rfl, fun _ _ => rfl, fun _ _ => rfl⟩

/-- Claim C3 counterexample: on a fully populated builder, `reset()` followed
by `build()` returns `Ok "SELECT *"` — a successful render, not the
missing-table builder-state error the claim asserts. -/
theorem reset_build_returns_ok :
    populatedBuilder.reset.build = .ok "SELECT *" := rfl

/-- Claim C3 (amended): `reset()` followed by `build()` on any builder —
fully populated or not — returns `Ok "SELECT *"` (the render of a fresh
builder, since `build_select` does not require a table), never SQL derived
from the pre-reset state and never an error. -/
theorem reset_then_build_fresh (b : SQLiteQueryBuilder) :
    b.reset.build = .ok "SELECT *" ∧ b.reset.build = SQLiteQueryBuilder.new.build :=
  ⟨rfl, rfl⟩

/-- Claim C4: `build()` reports a structural `QueryError` — and renders no
SQL — whenever the active statement kind is missing its required table
(INSERT/UPDATE/DELETE), whenever INSERT has an empty column or value-row list,
and whenever UPDATE has an empty SET list; for both builder implementations. -/
theorem build_structural_errors :
    (∀ b : SQLiteQueryBuilder,
      ((b.query_type = .Insert ∧
          (b.insert_table = none ∨ b.insert_columns = [] ∨ b.insert_values = [])) ∨
       (b.query_type = .Update ∧ (b.update_table = none ∨ b.update_sets = [])) ∨
       (b.query_type = .Delete ∧ b.delete_table = none)) →
      ∃ msg, b.build = .error (.QueryError msg)) ∧
    (∀ b : MySQLQueryBuilder,
      ((b.query_type = .Insert ∧
          (b.insert_table = none ∨ b.insert_columns = [] ∨ b.insert_values = [])) ∨
       (b.query_type = .Update ∧ (b.update_table = none ∨ b.update_sets = [])) ∨
       (b.query_type = .Delete ∧ b.delete_table = none)) →
      ∃ msg, b.build = .error (.QueryError msg)) := by
  constructor
  · intro b h
    rcases h with ⟨hk, h⟩ | ⟨hk, h⟩ | ⟨hk, ht⟩
    · rcases h with ht | hc | hv
      · exact ⟨"No table specified for INSERT",
          by simp [SQLiteQueryBuilder.build, hk, SQLiteQueryBuilder.build_insert, ht]⟩
      · cases hit : b.insert_table with
        | none => exact ⟨"No table specified for INSERT",
            by simp [SQLiteQueryBuilder.build, hk, SQLiteQueryBuilder.build_insert, hit]⟩
        | some t => exact ⟨"No columns specified for INSERT",
            by simp [SQLiteQueryBuilder.build, hk, SQLiteQueryBuilder.build_insert, hit, hc]⟩
      · cases hit : b.insert_table with
        | none => exact ⟨"No table specified for INSERT",
            by simp [SQLiteQueryBuilder.build, hk, SQLiteQueryBuilder.build_insert, hit]⟩
        | some t =>
          by_cases hc : b.insert_columns.isEmpty
          · exact ⟨"No columns specified for INSERT",
              by simp [SQLiteQueryBuilder.build, hk, SQLiteQueryBuilder.build_insert, hit, hc]⟩
          · exact ⟨"No values specified for INSERT",
              by simp [SQLiteQueryBuilder.build, hk, SQLiteQueryBuilder.build_insert, hit, hc, hv]⟩
    · rcases h with ht | hs
      · exact ⟨"No table specified for UPDATE",
          by simp [SQLiteQueryBuilder.build, hk, SQLiteQueryBuilder.build_update, ht]⟩
      · cases hut : b.update_table with
        | none => exact ⟨"No table specified for UPDATE",
            by simp [SQLiteQueryBuilder.build, hk, SQLiteQueryBuilder.build_update, hut]⟩
        | some t => exact ⟨"No SET clauses specified for UPDATE",
            by simp [SQLiteQueryBuilder.build, hk, SQLiteQueryBuilder.build_update, hut, hs]⟩
    · exact ⟨"No table specified for DELETE",
        by simp [SQLiteQueryBuilder.build, hk, SQLiteQueryBuilder.build_delete, ht]⟩
  · intro b h
    rcases h with ⟨hk, h⟩ | ⟨hk, h⟩ | ⟨hk, ht⟩
    · rcases h with ht | hc | hv
      · exact ⟨"No table specified for INSERT",
          by simp [MySQLQueryBuilder.build, hk, MySQLQueryBuilder.build_insert, ht]⟩
      · cases hit : b.insert_table with
        | none => exact ⟨"No table specified for INSERT",
            by simp [MySQLQueryBuilder.build, hk, MySQLQueryBuilder.build_insert, hit]⟩
        | some t => exact ⟨"No columns specified for INSERT",
            by simp [MySQLQueryBuilder.build, hk, MySQLQueryBuilder.build_insert, hit, hc]⟩
      · cases hit : b.insert_table with
        | none => exact ⟨"No table specified for INSERT",
            by simp [MySQLQueryBuilder.build, hk, MySQLQueryBuilder.build_insert, hit]⟩
        | some t =>
          by_cases hc : b.insert_columns.isEmpty
          · exact ⟨"No columns specified for INSERT",
              by simp [MySQLQueryBuilder.build, hk, MySQLQueryBuilder.build_insert, hit, hc]⟩
          · exact ⟨"No values specified for INSERT",
              by simp [MySQLQueryBuilder.build, hk, MySQLQueryBuilder.build_insert, hit, hc, hv]⟩
    · rcases h with ht | hs
      · exact ⟨"No table specified for UPDATE",
          by simp [MySQLQueryBuilder.build, hk, MySQLQueryBuilder.build_update, ht]⟩
      · cases hut : b.update_table with
        | none => exact ⟨"No table specified for UPDATE",
            by simp [MySQLQueryBuilder.build, hk, MySQLQueryBuilder.build_update, hut]⟩
        | some t => exact ⟨"No SET clauses specified for UPDATE",
            by simp [MySQLQueryBuilder.build, hk, MySQLQueryBuilder.build_update, hut, hs]⟩
    · exact ⟨"No table specified for DELETE",
        by simp [MySQLQueryBuilder.build, hk, MySQLQueryBuilder.build_delete, ht]⟩

/-- Witness for C4: an INSERT-kind builder with no table set errors out. -/
theorem build_structural_errors_witness :
    ∃ msg, ({ SQLiteQueryBuilder.new with query_type := .Insert }
      : SQLiteQueryBuilder).build = .error (.QueryError msg) :=
  build_structural_errors.1 _ (Or.inl ⟨rfl, Or.inl rfl⟩)

theorem applySQLite_query_type (b : SQLiteQueryBuilder) (c : Call) :
    (applySQLite b c).query_type = c.entryKind.getD b.query_type := by
  cases c <;> rfl

theorem applyMySQL_query_type (b : MySQLQueryBuilder) (c : Call) :
    (applyMySQL b c).query_type = c.entryKind.getD b.query_type := by
  cases c <;> rfl

theorem applySQLiteCalls_query_type (cs : List Call) (b : SQLiteQueryBuilder) :
    (applySQLiteCalls cs b).query_type = (lastEntryKind cs).getD b.query_type := by
  induction cs generalizing b with
  | nil => rfl
  | cons c cs ih =>
    show (applySQLiteCalls cs (applySQLite b c)).query_type = _
    rw [ih, applySQLite_query_type]
    cases h : lastEntryKind cs <;> simp [lastEntryKind, h]

theorem applyMySQLCalls_query_type (cs : List Call) (b : MySQLQueryBuilder) :
    (applyMySQLCalls cs b).query_type = (lastEntryKind cs).getD b.query_type := by
  induction cs generalizing b with
  | nil => rfl
  | cons c cs ih =>
    show (applyMySQLCalls cs (applyMySQL b c)).query_type = _
    rw [ih, applyMySQL_query_type]
    cases h : lastEntryKind cs <;> simp [lastEntryKind, h]

theorem sqlite_build_dispatch (b : SQLiteQueryBuilder) :
    b.build = buildOfKindSQLite b.query_type b := by
  cases h : b.query_type <;> simp [SQLiteQueryBuilder.build, buildOfKindSQLite, h]

theorem mysql_build_dispatch (b : MySQLQueryBuilder) :
    b.build = buildOfKindMySQL b.query_type b := by
  cases h : b.query_type <;> simp [MySQLQueryBuilder.build, buildOfKindMySQL, h]

/-- Claim C7: statement kinds are mutually exclusive and last-writer-wins —
after any interleaving of calls, the resulting statement kind is the one set
by the last entry-point call (`select`/`insert_into`/`update`/`delete_from`),
and `build()` dispatches to exactly that kind's render function; for both
builder implementations. -/
theorem kind_last_writer_wins (cs : List Call) (bS : SQLiteQueryBuilder)
    (bM : MySQLQueryBuilder) :
    ((applySQLiteCalls cs bS).query_type = (lastEntryKind cs).getD bS.query_type ∧
     (applySQLiteCalls cs bS).build
       = buildOfKindSQLite ((lastEntryKind cs).getD bS.query_type)
           (applySQLiteCalls cs bS)) ∧
    ((applyMySQLCalls cs bM).query_type = (lastEntryKind cs).getD bM.query_type ∧
     (applyMySQLCalls cs bM).build
       = buildOfKindMySQL ((lastEntryKind cs).getD bM.query_type)
           (applyMySQLCalls cs bM)) := by
  refine ⟨⟨applySQLiteCalls_query_type cs bS, ?_⟩,
          ⟨applyMySQLCalls_query_type cs bM, ?_⟩⟩
  · rw [sqlite_build_dispatch, applySQLiteCalls_query_type]
  · rw [mysql_build_dispatch, applyMySQLCalls_query_type]

/-- Claim C8: an INSERT build with a table, a non-empty column list and a
non-empty row list always succeeds and renders every value-row exactly as
supplied — no row-arity validation against the column list takes place. -/
theorem insert_no_arity_validation (b : SQLiteQueryBuilder) (t : String)
    (hk : b.query_type = .Insert) (ht : b.insert_table = some t)
    (hc : b.insert_columns ≠ []) (hv : b.insert_values ≠ []) :
    b.build = .ok ("INSERT INTO " ++ t ++ " (" ++ joinSep ", " b.insert_columns
      ++ ") VALUES "
      ++ joinSep ", " (b.insert_values.map fun row => "(" ++ joinSep ", " row ++ ")")
      ++ (if b.returning_columns.isEmpty then ""
          else " RETURNING " ++ joinSep ", " b.returning_columns)) := by
  by_cases hr : b.returning_columns.isEmpty
  · simp [SQLiteQueryBuilder.build, hk, SQLiteQueryBuilder.build_insert, ht, hc, hv, hr,
      string_append_empty]
  · simp [SQLiteQueryBuilder.build, hk, SQLiteQueryBuilder.build_insert, ht, hc, hv, hr,
      string_append_assoc]

/-- Witness for C8: a two-column INSERT accepts a three-element value row and
renders it verbatim. -/
theorem insert_no_arity_validation_witness :
    ({ SQLiteQueryBuilder.new with
        query_type := .Insert
        insert_table := some "t"
        insert_columns := ["a", "b"]
        insert_values := [["1", "2", "3"]] }
      : SQLiteQueryBuilder).build = .ok "INSERT INTO t (a, b) VALUES (1, 2, 3)" := by
  have h := insert_no_arity_validation
    ({ SQLiteQueryBuilder.new with
        query_type := .Insert
        insert_table := some "t"
        insert_columns := ["a", "b"]
        insert_values := [["1", "2", "3"]] })
    "t" rfl rfl (by decide) (by decide)
  simpa using h

/-- Claim C2 counterexample: on the SQLite builder (RETURNING-capable dialect)
with SELECT statement kind and a non-empty returning list, the rendered SQL
contains no RETURNING clause — refuting the claimed iff over all builder
states. -/
theorem returning_iff_refuted :
    Dialect.supportsReturning .SQLite = true ∧
    selectWithReturning.returning_columns = ["id"] ∧
    selectWithReturning.build = .ok "SELECT * FROM t" ∧
    containsReturning "SELECT * FROM t" = false :=
  ⟨rfl, rfl, rfl, by decide⟩

/-- Claim C2 (amended): on the SQLite builder, for the mutating statement
kinds (INSERT/UPDATE/DELETE) the built SQL is exactly the SQL of the same
state without returning columns suffixed by ` RETURNING <cols>` when
`returning()` supplied a non-empty list; for SELECT the returning columns
never affect the SQL; an empty returning list changes nothing; and on the
MySQL builder `returning()` is accepted as a state-preserving no-op, so its
SQL is identical to the no-call rendering and no error is raised. -/
theorem returning_rendering :
    (∀ b : SQLiteQueryBuilder, b.query_type ≠ .Select → b.returning_columns ≠ [] →
      b.build = (({ b with returning_columns := [] } : SQLiteQueryBuilder).build).map
        (fun core => core ++ " RETURNING " ++ joinSep ", " b.returning_columns)) ∧
    (∀ b : SQLiteQueryBuilder, b.query_type = .Select →
      b.build = ({ b with returning_columns := [] } : SQLiteQueryBuilder).build) ∧
    (∀ b : SQLiteQueryBuilder, b.returning_columns = [] →
      ({ b with returning_columns := [] } : SQLiteQueryBuilder) = b) ∧
    (∀ (b : MySQLQueryBuilder) (cols : List String), b.returning cols = b) := by
  refine ⟨?_, ?_, ?_, fun _ _ => rfl⟩
  · intro b hk hr
    have hr' : b.returning_columns.isEmpty = false := by
      cases hrc : b.returning_columns with
      | nil => exact absurd hrc hr
      | cons x xs => rfl
    cases h : b.query_type with
    | Select => exact absurd h hk
    | Insert =>
      cases hit : b.insert_table with
      | none =>
        simp [SQLiteQueryBuilder.build, h, SQLiteQueryBuilder.build_insert, hit, Except.map]
      | some t =>
        by_cases hc : b.insert_columns.isEmpty
        · simp [SQLiteQueryBuilder.build, h, SQLiteQueryBuilder.build_insert, hit, hc,
            Except.map]
        · by_cases hv : b.insert_values.isEmpty
          · simp [SQLiteQueryBuilder.build, h, SQLiteQueryBuilder.build_insert, hit, hc, hv,
              Except.map]
          · simp [SQLiteQueryBuilder.build, h, SQLiteQueryBuilder.build_insert, hit, hc, hv,
              hr', Except.map, string_append_assoc]
    | Update =>
      cases hut : b.update_table with
      | none =>
        simp [SQLiteQueryBuilder.build, h, SQLiteQueryBuilder.build_update, hut, Except.map]
      | some t =>
        by_cases hs : b.update_sets.isEmpty
        · simp [SQLiteQueryBuilder.build, h, SQLiteQueryBuilder.build_update, hut, hs,
            Except.map]
        · simp [SQLiteQueryBuilder.build, h, SQLiteQueryBuilder.build_update, hut, hs, hr',
            Except.map, string_append_assoc]
    | Delete =>
      cases hdt : b.delete_table with
      | none =>
        simp [SQLiteQueryBuilder.build, h, SQLiteQueryBuilder.build_delete, hdt, Except.map]
      | some t =>
        simp [SQLiteQueryBuilder.build, h, SQLiteQueryBuilder.build_delete, hdt, hr',
          Except.map, string_append_assoc]
  · intro b h
    simp [SQLiteQueryBuilder.build, h, SQLiteQueryBuilder.build_select]
  · intro b h
    cases b
    simp only at h
    subst h
    rfl

/-- Witness for C2: an INSERT with returning columns on SQLite renders the
core statement plus the RETURNING suffix. -/
theorem returning_rendering_witness :
    ({ SQLiteQueryBuilder.new with
        query_type := .Insert
        insert_table := some "t"
        insert_columns := ["a"]
        insert_values := [["1"]]
        returning_columns := ["id"] } : SQLiteQueryBuilder).build
      = .ok "INSERT INTO t (a) VALUES (1) RETURNING id" := by
  have h := returning_rendering.1
    ({ SQLiteQueryBuilder.new with
        query_type := .Insert
        insert_table := some "t"
        insert_columns := ["a"]
        insert_values := [["1"]]
        returning_columns := ["id"] } : SQLiteQueryBuilder)
    (by decide) (by decide)
  rw [h]
  rfl

/-! ## Claim theorems for transactions -/

theorem liftDriver_ne_query_error {α : Type} (r : Except SqlxError α) (msg : String) :
    Transaction.liftDriver r ≠ .error (.QueryError msg) := by
  cases r <;> simp [Transaction.liftDriver]

/-- Claim C10: `commit()` and `rollback()` on a transaction whose inner
session is already consumed return `Ok(())` without any driver operation (the
result is `Ok(())` whatever the driver oracles would return). -/
theorem consumed_commit_rollback_ok {σ τ : Type} (tx : Transaction σ τ)
    (h : tx.inner = none)
    (cS : σ → Except SqlxError Unit) (cM : τ → Except SqlxError Unit)
    (rS : σ → Except SqlxError Unit) (rM : τ → Except SqlxError Unit) :
    tx.commit cS cM = .ok () ∧ tx.rollback rS rM = .ok () := by
  constructor <;> simp [Transaction.commit, Transaction.rollback, h]

/-- Witness for C10: a consumed transaction returns `Ok(())` from both
`commit` and `rollback` even under always-failing driver oracles. -/
theorem consumed_commit_rollback_ok_witness :
    (({ inner := none } : Transaction Unit Unit).commit
        (fun _ => .error ⟨7⟩) (fun _ => .error ⟨7⟩) = .ok ()) ∧
    (({ inner := none } : Transaction Unit Unit).rollback
        (fun _ => .error ⟨7⟩) (fun _ => .error ⟨7⟩) = .ok ()) :=
  consumed_commit_rollback_ok _ rfl _ _ _ _

/-- Claim C5: each execution operation of a transaction (`execute`,
`fetch_all`, `fetch_one` and their `_params` variants) fails with the
"Transaction already completed" query error once the inner session is
consumed — whatever the driver oracles would return, so no database operation
takes place — and never returns that error while the transaction is active. -/
theorem tx_execution_requires_active {σ τ : Type} (tx : Transaction σ τ)
    (sql : String) (ps : List QueryValue)
    (eS : σ → String → Except SqlxError Nat)
    (eM : τ → String → Except SqlxError Nat)
    (epS : σ → String → List QueryValue → Except SqlxError Nat)
    (epM : τ → String → List QueryValue → Except SqlxError Nat)
    (faS : σ → String → Except SqlxError (List (List (String × SqliteCell))))
    (faM : τ → String → Except SqlxError (List (List (String × MySqlCell))))
    (fapS : σ → String → List QueryValue → Except SqlxError (List (List (String × SqliteCell))))
    (fapM : τ → String → List QueryValue → Except SqlxError (List (List (String × MySqlCell))))
    (foS : σ → String → Except SqlxError (Option (List (String × SqliteCell))))
    (foM : τ → String → Except SqlxError (Option (List (String × MySqlCell))))
    (fopS : σ → String → List QueryValue → Except SqlxError (Option (List (String × SqliteCell))))
    (fopM : τ → String → List QueryValue → Except SqlxError (Option (List (String × MySqlCell)))) :
    (tx.inner = none →
      tx.execute sql eS eM = .error (.QueryError "Transaction already completed") ∧
      tx.execute_params sql ps epS epM
        = .error (.QueryError "Transaction already completed") ∧
      tx.fetch_all sql faS faM = .error (.QueryError "Transaction already completed") ∧
      tx.fetch_all_params sql ps fapS fapM
        = .error (.QueryError "Transaction already completed") ∧
      tx.fetch_one sql foS foM = .error (.QueryError "Transaction already completed") ∧
      tx.fetch_one_params sql ps fopS fopM
        = .error (.QueryError "Transaction already completed")) ∧
    (∀ i, tx.inner = some i →
      tx.execute sql eS eM ≠ .error (.QueryError "Transaction already completed") ∧
      tx.execute_params sql ps epS epM
        ≠ .error (.QueryError "Transaction already completed") ∧
      tx.fetch_all sql faS faM ≠ .error (.QueryError "Transaction already completed") ∧
      tx.fetch_all_params sql ps fapS fapM
        ≠ .error (.QueryError "Transaction already completed") ∧
      tx.fetch_one sql foS foM ≠ .error (.QueryError "Transaction already completed") ∧
      tx.fetch_one_params sql ps fopS fopM
        ≠ .error (.QueryError "Transaction already completed")) := by
  constructor
  · intro h
    refine ⟨?_, ?_, ?_, ?_, ?_, ?_⟩ <;>
      simp [Transaction.execute, Transaction.execute_params, Transaction.fetch_all,
        Transaction.fetch_all_params, Transaction.fetch_one, Transaction.fetch_one_params, h]
  · intro i h
    cases i <;>
      refine ⟨?_, ?_, ?_, ?_, ?_, ?_⟩ <;>
      · simp only [Transaction.execute, Transaction.execute_params, Transaction.fetch_all,
          Transaction.fetch_all_params, Transaction.fetch_one,
          Transaction.fetch_one_params, h]
        apply liftDriver_ne_query_error

/-- Witness for C5: on a consumed transaction `execute` reports the
completed-transaction error; on an active one it returns the driver result. -/
theorem tx_execution_requires_active_witness :
    (({ inner := none } : Transaction Unit Unit).execute "SELECT 1"
        (fun _ _ => .ok 1) (fun _ _ => .ok 1)
      = .error (.QueryError "Transaction already completed")) ∧
    (({ inner := some (.SQLite ()) } : Transaction Unit Unit).execute "SELECT 1"
        (fun _ _ => .ok 1) (fun _ _ => .ok 1)
      ≠ .error (.QueryError "Transaction already completed")) := by
  constructor
  · exact (tx_execution_requires_active ({ inner := none } : Transaction Unit Unit)
      "SELECT 1" [] (fun _ _ => .ok 1) (fun _ _ => .ok 1)
      (fun _ _ _ => .ok 1) (fun _ _ _ => .ok 1)
      (fun _ _ => .ok []) (fun _ _ => .ok [])
      (fun _ _ _ => .ok []) (fun _ _ _ => .ok [])
      (fun _ _ => .ok none) (fun _ _ => .ok none)
      (fun _ _ _ => .ok none) (fun _ _ _ => .ok none)).1 rfl |>.1
  · exact ((tx_execution_requires_active
      ({ inner := some (.SQLite ()) } : Transaction Unit Unit)
      "SELECT 1" [] (fun _ _ => .ok 1) (fun _ _ => .ok 1)
      (fun _ _ _ => .ok 1) (fun _ _ _ => .ok 1)
      (fun _ _ => .ok []) (fun _ _ => .ok [])
      (fun _ _ _ => .ok []) (fun _ _ _ => .ok [])
      (fun _ _ => .ok none) (fun _ _ => .ok none)
      (fun _ _ _ => .ok none) (fun _ _ _ => .ok none)).2 (.SQLite ()) rfl).1

/-! ## Claim theorems for row materialization -/

/-- Claim C6 counterexample: a cell decodable as none of integer, float,
boolean or string but decodable as a byte array is materialized as the base64
text of its bytes, not as null. -/
theorem blob_cell_not_null :
    blobOnlyCell.asI64 = none ∧ blobOnlyCell.asF64 = none ∧
    blobOnlyCell.asBool = none ∧ blobOnlyCell.asString = none ∧
    sqlite_cell_to_json blobOnlyCell = .str "aGk=" ∧
    sqlite_cell_to_json blobOnlyCell ≠ .null := by
  refine ⟨rfl, rfl, rfl, rfl, by decide, by decide⟩

/-- Claim C6 (amended): each cell is decoded by attempting integer (`i64`,
and on MySQL also `i32`), then float, then boolean, then string; in the shared
row-to-JSON utilities a byte-array interpretation is attempted next and
rendered as base64 text, with null only when all interpretations fail; the
backend fetch paths omit the byte-array step and fall through to null after
the string attempt. -/
theorem cell_decoding_order (c : SqliteCell) (d : MySqlCell) :
    (∀ v, c.asI64 = some v → sqlite_cell_to_json c = .int v) ∧
    (∀ v, c.asI64 = none → c.asF64 = some v → sqlite_cell_to_json c = .float v) ∧
    (∀ v, c.asI64 = none → c.asF64 = none → c.asBool = some v →
      sqlite_cell_to_json c = .bool v) ∧
    (∀ v, c.asI64 = none → c.asF64 = none → c.asBool = none → c.asString = some v →
      sqlite_cell_to_json c = .str v) ∧
    (∀ bs, c.asI64 = none → c.asF64 = none → c.asBool = none → c.asString = none →
      c.asBlob = some bs → sqlite_cell_to_json c = .str (base64_encode bs)) ∧
    (c.asI64 = none → c.asF64 = none → c.asBool = none → c.asString = none →
      c.asBlob = none → sqlite_cell_to_json c = .null) ∧
    (∀ v, d.asI64 = some v → mysql_cell_to_json d = .int v) ∧
    (∀ v, d.asI64 = none → d.asI32 = some v → mysql_cell_to_json d = .int v) ∧
    (∀ v, d.asI64 = none → d.asI32 = none → d.asF64 = some v →
      mysql_cell_to_json d = .float v) ∧
    (∀ v, d.asI64 = none → d.asI32 = none → d.asF64 = none → d.asBool = some v →
      mysql_cell_to_json d = .bool v) ∧
    (∀ s, d.asI64 = none → d.asI32 = none → d.asF64 = none → d.asBool = none →
      d.asString = some s → mysql_cell_to_json d = .str s) ∧
    (∀ bs, d.asI64 = none → d.asI32 = none → d.asF64 = none → d.asBool = none →
      d.asString = none → d.asBlob = some bs →
      mysql_cell_to_json d = .str (base64_encode bs)) ∧
    (d.asI64 = none → d.asI32 = none → d.asF64 = none → d.asBool = none →
      d.asString = none → d.asBlob = none → mysql_cell_to_json d = .null) ∧
    (∀ v, c.asI64 = some v → backend_sqlite_cell_to_json c = .int v) ∧
    (∀ v, c.asI64 = none → c.asF64 = some v → backend_sqlite_cell_to_json c = .float v) ∧
    (∀ v, c.asI64 = none → c.asF64 = none → c.asBool = some v →
      backend_sqlite_cell_to_json c = .bool v) ∧
    (∀ s, c.asI64 = none → c.asF64 = none → c.asBool = none → c.asString = some s →
      backend_sqlite_cell_to_json c = .str s) ∧
    (c.asI64 = none → c.asF64 = none → c.asBool = none → c.asString = none →
      backend_sqlite_cell_to_json c = .null) ∧
    (∀ bs, c.asI64 = none → c.asF64 = none → c.asBool = none → c.asString = none →
      c.asBlob = some bs → backend_sqlite_cell_to_json c = .null) ∧
    (∀ row : List (String × SqliteCell),
      sqlite_row_to_json row = row.map fun p => (p.1, sqlite_cell_to_json p.2)) ∧
    (∀ row : List (String × MySqlCell),
      mysql_row_to_json row = row.map fun p => (p.1, mysql_cell_to_json p.2)) := by
  refine ⟨?_, ?_, ?_, ?_, ?_, ?_, ?_, ?_, ?_, ?_, ?_, ?_, ?_, ?_, ?_, ?_, ?_, ?_, ?_,
    fun _ => rfl, fun _ => rfl⟩ <;>
    intros <;>
    simp_all [sqlite_cell_to_json, mysql_cell_to_json, backend_sqlite_cell_to_json]

/-- Witness for C6 (amended): a cell decodable only as a byte array is
materialized as base64 text by the shared utility and as null by the backend
path; one decodable as an integer is materialized as that integer by both
paths; a MySQL cell decodable only as a boolean is materialized as that
boolean. -/
theorem cell_decoding_order_witness :
    sqlite_cell_to_json blobOnlyCell = .str (base64_encode [104, 105]) ∧
    backend_sqlite_cell_to_json blobOnlyCell = .null ∧
    sqlite_cell_to_json ⟨some 5, none, none, none, none⟩ = .int 5 ∧
    backend_sqlite_cell_to_json ⟨some 5, none, none, none, none⟩ = .int 5 ∧
    mysql_cell_to_json ⟨none, none, none, some true, none, none⟩ = .bool true := by
  obtain ⟨w1, w2, w3, w4, w5, w6, w7, w8, w9, w10, w11, w12, w13, w14, w15, w16,
    w17, w18, w19, w20, w21⟩ :=
    cell_decoding_order blobOnlyCell ⟨none, none, none, some true, none, none⟩
  obtain ⟨u1, u2, u3, u4, u5, u6, u7, u8, u9, u10, u11, u12, u13, u14, u15, u16,
    u17, u18, u19, u20, u21⟩ :=
    cell_decoding_order ⟨some 5, none, none, none, none⟩
      ⟨none, none, none, none, none, none⟩
  exact ⟨w5 [104, 105] rfl rfl rfl rfl rfl, w19 [104, 105] rfl rfl rfl rfl rfl,
    u1 5 rfl, u14 5 rfl, w10 true rfl rfl rfl rfl⟩

/-! ## Placeholder counting and substitution lemmas -/

theorem countQs_append (l₁ l₂ : List Char) :
    countQs (l₁ ++ l₂) = countQs l₁ + countQs l₂ := by
  induction l₁ with
  | nil => simp [countQs]
  | cons c cs ih => simp [countQs, ih, Nat.add_assoc]

theorem substQs_nil (l : List Char) : substQs l [] = l := by
  induction l with
  | nil => rfl
  | cons c cs ih => by_cases h : c = '?' <;> simp [substQs, h, ih]

theorem substQs_of_noQ (l : List Char) (ps : List String) (h : countQs l = 0) :
    substQs l ps = l := by
  induction l generalizing ps with
  | nil => rfl
  | cons c cs ih =>
    by_cases hc : c = '?'
    · subst hc
      simp [countQs] at h
    · simp [countQs, hc] at h
      simp [substQs, hc, ih _ h]

theorem substQs_append (l₁ l₂ : List Char) (ps : List String) :
    substQs (l₁ ++ l₂) ps
      = substQs l₁ (ps.take (countQs l₁)) ++ substQs l₂ (ps.drop (countQs l₁)) := by
  induction l₁ generalizing ps with
  | nil => simp [substQs, countQs]
  | cons c cs ih =>
    by_cases h : c = '?'
    · subst h
      cases ps with
      | nil => simp [substQs, countQs, ih, Nat.one_add]
      | cons p ps1 => simp [substQs, countQs, ih, Nat.one_add, List.append_assoc]
    · simp [substQs, countQs, h, ih]

theorem countQ_append (s t : String) : countQ (s ++ t) = countQ s + countQ t := by
  simp [countQ, string_data_append, countQs_append]

theorem substQ_nil (s : String) : substQ s [] = s := by
  apply stringExt
  simp [substQ, substQs_nil]

theorem substQ_of_noQ (s : String) (ps : List String) (h : countQ s = 0) :
    substQ s ps = s := by
  apply stringExt
  simp [substQ, substQs_of_noQ _ _ h]

theorem substQ_append (s t : String) (ps : List String) :
    substQ (s ++ t) ps = substQ s (ps.take (countQ s)) ++ substQ t (ps.drop (countQ s)) := by
  apply stringExt
  simp [substQ, string_data_append, substQs_append, countQ]

theorem substQ_append_noQ_left (s t : String) (ps : List String) (h : countQ s = 0) :
    substQ (s ++ t) ps = s ++ substQ t ps := by
  rw [substQ_append, h]
  simp [substQ_of_noQ s _ h]

theorem substQ_append_exact (s t : String) (ps qs : List String)
    (h : countQ s = ps.length) :
    substQ (s ++ t) (ps ++ qs) = substQ s ps ++ substQ t qs := by
  rw [substQ_append, h]
  simp [List.take_left, List.drop_left]

theorem substQ_append_noQ_right (s t : String) (ps : List String)
    (h : countQ s = ps.length) (_ht : countQ t = 0) :
    substQ (s ++ t) ps = substQ s ps ++ t := by
  have h2 := substQ_append_exact s t ps [] h
  simpa [substQ_nil] using h2

theorem digitChar_ne_q (n : Nat) : digitChar n ≠ '?' := by
  unfold digitChar
  repeat' split
  all_goals decide

theorem countQs_natLitCore (fuel n : Nat) : countQs (natLitCore fuel n) = 0 := by
  induction fuel generalizing n with
  | zero => rfl
  | succ f ih =>
    unfold natLitCore
    split
    · simp [countQs, digitChar_ne_q n]
    · simp [countQs_append, countQs, ih, digitChar_ne_q]

theorem countQ_natLit (n : Nat) : countQ (natLit n) = 0 := countQs_natLitCore _ _

theorem countQ_joinSep_zero (sep : String) (hsep : countQ sep = 0) (l : List String)
    (h : ∀ x ∈ l, countQ x = 0) : countQ (joinSep sep l) = 0 := by
  induction l with
  | nil => rfl
  | cons x xs ih =>
    cases xs with
    | nil => simpa [joinSep] using h x (by simp)
    | cons y ys =>
      have hx := h x (by simp)
      have hrest : ∀ z ∈ y :: ys, countQ z = 0 := fun z hz => h z (by simp [hz])
      simp [joinSep, countQ_append, hsep, hx, ih hrest]

theorem substQs_cons_ne (c : Char) (h : ¬(c = '?')) (cs : List Char) (ps : List String) :
    substQs (c :: cs) ps = c :: substQs cs ps := by
  simp [substQs, h]

theorem substQs_cons_q (cs : List Char) (p : String) (ps : List String) :
    substQs ('?' :: cs) (p :: ps) = p.data ++ substQs cs ps := by
  simp [substQs]

theorem substQ_lone_q (v : String) : substQ "?" [v] = v := by
  apply stringExt
  show substQs ['?'] [v] = v.data
  rw [substQs_cons_q]
  simp [substQs]

theorem substQ_meq (v : String) : substQ " = ?" [v] = " = " ++ v := by
  apply stringExt
  rw [string_data_append]
  show substQs [' ', '=', ' ', '?'] [v] = (" = ").data ++ v.data
  rw [substQs_cons_ne _ (by decide), substQs_cons_ne _ (by decide),
    substQs_cons_ne _ (by decide), substQs_cons_q]
  simp [substQs]

theorem countQ_fragment (c : String) (hc : countQ c = 0) : countQ (c ++ " = ?") = 1 := by
  rw [countQ_append, hc]
  rfl

theorem substQ_fragment (c : String) (hc : countQ c = 0) (v : String) :
    substQ (c ++ " = ?") [v] = c ++ " = " ++ v := by
  rw [substQ_append_noQ_left _ _ _ hc, substQ_meq, string_append_assoc]

theorem countQ_where_join (pairs : List (String × QueryValue)) (sep : String)
    (hsep : countQ sep = 0) (h : ∀ p ∈ pairs, countQ p.1 = 0) :
    countQ (joinSep sep (pairs.map fun p => p.1 ++ " = ?")) = pairs.length := by
  induction pairs with
  | nil => rfl
  | cons p rest ih =>
    have hp := h p (by simp)
    have hrest : ∀ q ∈ rest, countQ q.1 = 0 := fun q hq => h q (by simp [hq])
    cases rest with
    | nil => simpa [joinSep] using countQ_fragment p.1 hp
    | cons q qs =>
      have hj := ih hrest
      simp only [List.map_cons, joinSep] at hj ⊢
      rw [countQ_append, countQ_append, countQ_fragment p.1 hp, hsep, hj]
      simp [Nat.add_comm]

theorem substQ_where_join (pairs : List (String × QueryValue)) (sep : String)
    (hsep : countQ sep = 0) (h : ∀ p ∈ pairs, countQ p.1 = 0) :
    substQ (joinSep sep (pairs.map fun p => p.1 ++ " = ?"))
        (pairs.map fun p => litParam p.2)
      = joinSep sep (pairs.map fun p => p.1 ++ " = " ++ litParam p.2) := by
  induction pairs with
  | nil => rfl
  | cons p rest ih =>
    have hp := h p (by simp)
    have hrest : ∀ q ∈ rest, countQ q.1 = 0 := fun q hq => h q (by simp [hq])
    cases rest with
    | nil => simpa [joinSep] using substQ_fragment p.1 hp (litParam p.2)
    | cons q qs =>
      have hj := ih hrest
      simp only [List.map_cons, joinSep] at hj ⊢
      have h1 : countQ (p.1 ++ " = ?" ++ sep) = ([litParam p.2]).length := by
        rw [countQ_append, countQ_fragment p.1 hp, hsep]
        rfl
      have h2 : litParam p.2 :: litParam q.2 :: (qs.map fun r => litParam r.2)
          = [litParam p.2] ++ (litParam q.2 :: (qs.map fun r => litParam r.2)) := rfl
      rw [h2, substQ_append_exact _ _ _ _ h1,
        substQ_append_noQ_right _ _ _ (by rw [countQ_fragment p.1 hp]; rfl) hsep,
        substQ_fragment p.1 hp, hj]

theorem fragment_norm (c : String) : c ++ " = " ++ "?" = c ++ " = ?" := by
  apply stringExt
  rw [string_data_append, string_data_append, string_data_append, List.append_assoc]
  rfl

theorem countQ_qrow (vs : List QueryValue) :
    countQ (joinSep ", " (vs.map fun _ => "?")) = vs.length := by
  induction vs with
  | nil => rfl
  | cons v rest ih =>
    cases rest with
    | nil => rfl
    | cons w ws =>
      simp only [List.map_cons, joinSep] at ih ⊢
      rw [countQ_append, countQ_append, ih]
      simp [countQ, countQs, Nat.add_comm]

theorem substQ_qrow (vs : List QueryValue) :
    substQ (joinSep ", " (vs.map fun _ => "?")) (vs.map litParam)
      = joinSep ", " (vs.map litParam) := by
  induction vs with
  | nil => rfl
  | cons v rest ih =>
    cases rest with
    | nil => simpa [joinSep] using substQ_lone_q (litParam v)
    | cons w ws =>
      simp only [List.map_cons, joinSep] at ih ⊢
      have h1 : countQ (("?" : String) ++ ", ") = ([litParam v]).length := by rfl
      have h2 : litParam v :: litParam w :: (ws.map litParam)
          = [litParam v] ++ (litParam w :: ws.map litParam) := rfl
      rw [h2, substQ_append_exact _ _ _ _ h1,
        substQ_append_noQ_right _ _ _ (by rfl) (by rfl), substQ_lone_q, ih]

theorem countQ_qrow_paren (vs : List QueryValue) :
    countQ ("(" ++ joinSep ", " (vs.map fun _ => "?") ++ ")") = vs.length := by
  have h1 : countQ "(" = 0 := by rfl
  have h2 : countQ ")" = 0 := by rfl
  rw [countQ_append, countQ_append, countQ_qrow, h1, h2]
  omega

theorem substQ_qrow_paren (vs : List QueryValue) :
    substQ ("(" ++ joinSep ", " (vs.map fun _ => "?") ++ ")") (vs.map litParam)
      = "(" ++ joinSep ", " (vs.map litParam) ++ ")" := by
  rw [substQ_append_noQ_right _ _ _ (by rw [countQ_append, countQ_qrow]; simp [countQ, countQs]) (by rfl),
    substQ_append_noQ_left _ _ _ (by rfl), substQ_qrow]

theorem countQ_qrows (rows : List (List QueryValue)) :
    countQ (joinSep ", " (rows.map fun vs => "(" ++ joinSep ", " (vs.map fun _ => "?") ++ ")"))
      = (rows.map List.length).sum := by
  induction rows with
  | nil => rfl
  | cons vs rest ih =>
    cases rest with
    | nil => simpa [joinSep] using countQ_qrow_paren vs
    | cons ws rs =>
      simp only [List.map_cons, joinSep] at ih ⊢
      have hc : countQ ", " = 0 := by rfl
      rw [countQ_append, countQ_append, countQ_qrow_paren, ih, hc]
      simp [List.sum_cons]

theorem substQ_qrows (rows : List (List QueryValue)) :
    substQ (joinSep ", " (rows.map fun vs => "(" ++ joinSep ", " (vs.map fun _ => "?") ++ ")"))
        ((rows.map fun vs => vs.map litParam).flatten)
      = joinSep ", " (rows.map fun vs => "(" ++ joinSep ", " (vs.map litParam) ++ ")") := by
  induction rows with
  | nil => rfl
  | cons vs rest ih =>
    cases rest with
    | nil =>
      simp only [List.map_cons, List.map_nil, List.flatten_cons, List.flatten_nil,
        joinSep, List.append_nil]
      exact substQ_qrow_paren vs
    | cons ws rs =>
      simp only [List.map_cons, List.flatten_cons, joinSep] at ih ⊢
      have h1 : countQ ("(" ++ joinSep ", " (vs.map fun _ => "?") ++ ")" ++ ", ")
          = (vs.map litParam).length := by
        rw [countQ_append, countQ_qrow_paren]
        simp [countQ, countQs]
      rw [substQ_append_exact _ _ _ _ h1,
        substQ_append_noQ_right _ _ _ (by rw [countQ_qrow_paren]; simp) (by rfl),
        substQ_qrow_paren, ih]

/-! ## State extraction for call sequences on the spec-modelled builder -/

theorem applyParamCalls_cons (c : ParamCall) (cs : List ParamCall) (b : ParamBuilder) :
    applyParamCalls (c :: cs) b = applyParamCalls cs (applyParam b c) := rfl

theorem applyInlineCalls_cons (c : ParamCall) (cs : List ParamCall) (b : ParamBuilder) :
    applyInlineCalls (c :: cs) b = applyInlineCalls cs (applyInline b c) := rfl

theorem params_extract (cs : List ParamCall) (b : ParamBuilder) :
    (applyParamCalls cs b).params = b.params ++ callParams cs := by
  induction cs generalizing b with
  | nil => simp [applyParamCalls, callParams]
  | cons c cs ih =>
    rw [applyParamCalls_cons, ih]
    cases c <;>
      simp [applyParam, ParamBuilder.select, ParamBuilder.fromTable,
        ParamBuilder.where_clause, ParamBuilder.where_eq, ParamBuilder.orderBy,
        ParamBuilder.setLimit, ParamBuilder.setOffset, ParamBuilder.insert_into,
        ParamBuilder.values, ParamBuilder.values_params, ParamBuilder.update,
        ParamBuilder.set, ParamBuilder.set_param, ParamBuilder.delete_from,
        ParamBuilder.returning, ParamBuilder.join, ParamBuilder.groupBy,
        ParamBuilder.setHaving, ParamBuilder.setDistinct, callParams,
        List.append_assoc]

theorem where_clauses_extract (cs : List ParamCall) (b : ParamBuilder)
    (h : ∀ c ∈ cs, SafeCall c = true) :
    (applyParamCalls cs b).where_clauses
      = b.where_clauses ++ (wherePairs cs).map fun p => p.1 ++ " = ?" := by
  induction cs generalizing b with
  | nil => simp [applyParamCalls, wherePairs]
  | cons c cs ih =>
    have hc := h c (by simp)
    have hrest : ∀ x ∈ cs, SafeCall x = true := fun x hx => h x (by simp [hx])
    rw [applyParamCalls_cons, ih _ hrest]
    cases c with
    | where_clause c0 => simp [SafeCall] at hc
    | values vs => simp [SafeCall] at hc
    | set c0 v0 => simp [SafeCall] at hc
    | select cols =>
      simp [applyParam, ParamBuilder.select, wherePairs, List.append_assoc]
    | fromTable t =>
      simp [applyParam, ParamBuilder.fromTable, wherePairs, List.append_assoc]
    | where_eq col v =>
      simp [applyParam, ParamBuilder.where_eq, wherePairs, List.append_assoc]
    | order_by c0 d0 =>
      simp [applyParam, ParamBuilder.orderBy, wherePairs, List.append_assoc]
    | limit n =>
      simp [applyParam, ParamBuilder.setLimit, wherePairs, List.append_assoc]
    | offset n =>
      simp [applyParam, ParamBuilder.setOffset, wherePairs, List.append_assoc]
    | insert_into t cols =>
      simp [applyParam, ParamBuilder.insert_into, wherePairs, List.append_assoc]
    | values_params vs =>
      simp [applyParam, ParamBuilder.values_params, wherePairs, List.append_assoc]
    | update t =>
      simp [applyParam, ParamBuilder.update, wherePairs, List.append_assoc]
    | set_param col v =>
      simp [applyParam, ParamBuilder.set_param, wherePairs, List.append_assoc]
    | delete_from t =>
      simp [applyParam, ParamBuilder.delete_from, wherePairs, List.append_assoc]
    | returning cols =>
      simp [applyParam, ParamBuilder.returning, wherePairs, List.append_assoc]
    | join jt t onp =>
      simp [applyParam, ParamBuilder.join, wherePairs, List.append_assoc]
    | group_by cols =>
      simp [applyParam, ParamBuilder.groupBy, wherePairs, List.append_assoc]
    | having c0 =>
      simp [applyParam, ParamBuilder.setHaving, wherePairs, List.append_assoc]
    | distinct =>
      simp [applyParam, ParamBuilder.setDistinct, wherePairs, List.append_assoc]

theorem update_sets_extract (cs : List ParamCall) (b : ParamBuilder)
    (h : ∀ c ∈ cs, SafeCall c = true) :
    (applyParamCalls cs b).update_sets
      = b.update_sets ++ (setPairs cs).map fun p => (p.1, ("?" : String)) := by
  induction cs generalizing b with
  | nil => simp [applyParamCalls, setPairs]
  | cons c cs ih =>
    have hc := h c (by simp)
    have hrest : ∀ x ∈ cs, SafeCall x = true := fun x hx => h x (by simp [hx])
    rw [applyParamCalls_cons, ih _ hrest]
    cases c with
    | where_clause c0 => simp [SafeCall] at hc
    | values vs => simp [SafeCall] at hc
    | set c0 v0 => simp [SafeCall] at hc
    | select cols =>
      simp [applyParam, ParamBuilder.select, setPairs, List.append_assoc]
    | fromTable t =>
      simp [applyParam, ParamBuilder.fromTable, setPairs, List.append_assoc]
    | where_eq col v =>
      simp [applyParam, ParamBuilder.where_eq, setPairs, List.append_assoc]
    | order_by c0 d0 =>
      simp [applyParam, ParamBuilder.orderBy, setPairs, List.append_assoc]
    | limit n =>
      simp [applyParam, ParamBuilder.setLimit, setPairs, List.append_assoc]
    | offset n =>
      simp [applyParam, ParamBuilder.setOffset, setPairs, List.append_assoc]
    | insert_into t cols =>
      simp [applyParam, ParamBuilder.insert_into, setPairs, List.append_assoc]
    | values_params vs =>
      simp [applyParam, ParamBuilder.values_params, setPairs, List.append_assoc]
    | update t =>
      simp [applyParam, ParamBuilder.update, setPairs, List.append_assoc]
    | set_param col v =>
      simp [applyParam, ParamBuilder.set_param, setPairs, List.append_assoc]
    | delete_from t =>
      simp [applyParam, ParamBuilder.delete_from, setPairs, List.append_assoc]
    | returning cols =>
      simp [applyParam, ParamBuilder.returning, setPairs, List.append_assoc]
    | join jt t onp =>
      simp [applyParam, ParamBuilder.join, setPairs, List.append_assoc]
    | group_by cols =>
      simp [applyParam, ParamBuilder.groupBy, setPairs, List.append_assoc]
    | having c0 =>
      simp [applyParam, ParamBuilder.setHaving, setPairs, List.append_assoc]
    | distinct =>
      simp [applyParam, ParamBuilder.setDistinct, setPairs, List.append_assoc]

theorem insert_values_extract (cs : List ParamCall) (b : ParamBuilder)
    (h : ∀ c ∈ cs, SafeCall c = true) :
    (applyParamCalls cs b).insert_values
      = b.insert_values ++ (valueRows cs).map fun vs => vs.map fun _ => ("?" : String) := by
  induction cs generalizing b with
  | nil => simp [applyParamCalls, valueRows]
  | cons c cs ih =>
    have hc := h c (by simp)
    have hrest : ∀ x ∈ cs, SafeCall x = true := fun x hx => h x (by simp [hx])
    rw [applyParamCalls_cons, ih _ hrest]
    cases c with
    | where_clause c0 => simp [SafeCall] at hc
    | values vs => simp [SafeCall] at hc
    | set c0 v0 => simp [SafeCall] at hc
    | select cols =>
      simp [applyParam, ParamBuilder.select, valueRows, List.append_assoc]
    | fromTable t =>
      simp [applyParam, ParamBuilder.fromTable, valueRows, List.append_assoc]
    | where_eq col v =>
      simp [applyParam, ParamBuilder.where_eq, valueRows, List.append_assoc]
    | order_by c0 d0 =>
      simp [applyParam, ParamBuilder.orderBy, valueRows, List.append_assoc]
    | limit n =>
      simp [applyParam, ParamBuilder.setLimit, valueRows, List.append_assoc]
    | offset n =>
      simp [applyParam, ParamBuilder.setOffset, valueRows, List.append_assoc]
    | insert_into t cols =>
      simp [applyParam, ParamBuilder.insert_into, valueRows, List.append_assoc]
    | values_params vs =>
      simp [applyParam, ParamBuilder.values_params, valueRows, List.append_assoc]
    | update t =>
      simp [applyParam, ParamBuilder.update, valueRows, List.append_assoc]
    | set_param col v =>
      simp [applyParam, ParamBuilder.set_param, valueRows, List.append_assoc]
    | delete_from t =>
      simp [applyParam, ParamBuilder.delete_from, valueRows, List.append_assoc]
    | returning cols =>
      simp [applyParam, ParamBuilder.returning, valueRows, List.append_assoc]
    | join jt t onp =>
      simp [applyParam, ParamBuilder.join, valueRows, List.append_assoc]
    | group_by cols =>
      simp [applyParam, ParamBuilder.groupBy, valueRows, List.append_assoc]
    | having c0 =>
      simp [applyParam, ParamBuilder.setHaving, valueRows, List.append_assoc]
    | distinct =>
      simp [applyParam, ParamBuilder.setDistinct, valueRows, List.append_assoc]

theorem inline_params_extract (cs : List ParamCall) (b : ParamBuilder) :
    (applyInlineCalls cs b).params = b.params := by
  induction cs generalizing b with
  | nil => rfl
  | cons c cs ih =>
    rw [applyInlineCalls_cons, ih]
    cases c <;>
      simp [applyInline, applyParam, ParamBuilder.select, ParamBuilder.fromTable,
        ParamBuilder.where_clause, ParamBuilder.orderBy,
        ParamBuilder.setLimit, ParamBuilder.setOffset, ParamBuilder.insert_into,
        ParamBuilder.values, ParamBuilder.update,
        ParamBuilder.set, ParamBuilder.delete_from,
        ParamBuilder.returning, ParamBuilder.join, ParamBuilder.groupBy,
        ParamBuilder.setHaving, ParamBuilder.setDistinct]

theorem inline_where_clauses_extract (cs : List ParamCall) (b : ParamBuilder)
    (h : ∀ c ∈ cs, SafeCall c = true) :
    (applyInlineCalls cs b).where_clauses
      = b.where_clauses ++ (wherePairs cs).map fun p => p.1 ++ " = " ++ litParam p.2 := by
  induction cs generalizing b with
  | nil => simp [applyInlineCalls, wherePairs]
  | cons c cs ih =>
    have hc := h c (by simp)
    have hrest : ∀ x ∈ cs, SafeCall x = true := fun x hx => h x (by simp [hx])
    rw [applyInlineCalls_cons, ih _ hrest]
    cases c with
    | where_clause c0 => simp [SafeCall] at hc
    | values vs => simp [SafeCall] at hc
    | set c0 v0 => simp [SafeCall] at hc
    | select cols =>
      simp [applyInline, applyParam, ParamBuilder.select, wherePairs, List.append_assoc]
    | fromTable t =>
      simp [applyInline, applyParam, ParamBuilder.fromTable, wherePairs, List.append_assoc]
    | where_eq col v =>
      simp [applyInline, applyParam, ParamBuilder.where_eq, wherePairs, List.append_assoc]
    | order_by c0 d0 =>
      simp [applyInline, applyParam, ParamBuilder.orderBy, wherePairs, List.append_assoc]
    | limit n =>
      simp [applyInline, applyParam, ParamBuilder.setLimit, wherePairs, List.append_assoc]
    | offset n =>
      simp [applyInline, applyParam, ParamBuilder.setOffset, wherePairs, List.append_assoc]
    | insert_into t cols =>
      simp [applyInline, applyParam, ParamBuilder.insert_into, wherePairs, List.append_assoc]
    | values_params vs =>
      simp [applyInline, applyParam, ParamBuilder.values_params, wherePairs, List.append_assoc]
    | update t =>
      simp [applyInline, applyParam, ParamBuilder.update, wherePairs, List.append_assoc]
    | set_param col v =>
      simp [applyInline, applyParam, ParamBuilder.set_param, wherePairs, List.append_assoc]
    | delete_from t =>
      simp [applyInline, applyParam, ParamBuilder.delete_from, wherePairs, List.append_assoc]
    | returning cols =>
      simp [applyInline, applyParam, ParamBuilder.returning, wherePairs, List.append_assoc]
    | join jt t onp =>
      simp [applyInline, applyParam, ParamBuilder.join, wherePairs, List.append_assoc]
    | group_by cols =>
      simp [applyInline, applyParam, ParamBuilder.groupBy, wherePairs, List.append_assoc]
    | having c0 =>
      simp [applyInline, applyParam, ParamBuilder.setHaving, wherePairs, List.append_assoc]
    | distinct =>
      simp [applyInline, applyParam, ParamBuilder.setDistinct, wherePairs, List.append_assoc]

theorem inline_update_sets_extract (cs : List ParamCall) (b : ParamBuilder)
    (h : ∀ c ∈ cs, SafeCall c = true) :
    (applyInlineCalls cs b).update_sets
      = b.update_sets ++ (setPairs cs).map fun p => (p.1, litParam p.2) := by
  induction cs generalizing b with
  | nil => simp [applyInlineCalls, setPairs]
  | cons c cs ih =>
    have hc := h c (by simp)
    have hrest : ∀ x ∈ cs, SafeCall x = true := fun x hx => h x (by simp [hx])
    rw [applyInlineCalls_cons, ih _ hrest]
    cases c with
    | where_clause c0 => simp [SafeCall] at hc
    | values vs => simp [SafeCall] at hc
    | set c0 v0 => simp [SafeCall] at hc
    | select cols =>
      simp [applyInline, applyParam, ParamBuilder.select, setPairs, List.append_assoc]
    | fromTable t =>
      simp [applyInline, applyParam, ParamBuilder.fromTable, setPairs, List.append_assoc]
    | where_eq col v =>
      simp [applyInline, applyParam, ParamBuilder.where_eq, setPairs, List.append_assoc]
    | order_by c0 d0 =>
      simp [applyInline, applyParam, ParamBuilder.orderBy, setPairs, List.append_assoc]
    | limit n =>
      simp [applyInline, applyParam, ParamBuilder.setLimit, setPairs, List.append_assoc]
    | offset n =>
      simp [applyInline, applyParam, ParamBuilder.setOffset, setPairs, List.append_assoc]
    | insert_into t cols =>
      simp [applyInline, applyParam, ParamBuilder.insert_into, setPairs, List.append_assoc]
    | values_params vs =>
      simp [applyInline, applyParam, ParamBuilder.values_params, setPairs, List.append_assoc]
    | update t =>
      simp [applyInline, applyParam, ParamBuilder.update, setPairs, List.append_assoc]
    | set_param col v =>
      simp [applyInline, applyParam, ParamBuilder.set_param, setPairs, List.append_assoc]
    | delete_from t =>
      simp [applyInline, applyParam, ParamBuilder.delete_from, setPairs, List.append_assoc]
    | returning cols =>
      simp [applyInline, applyParam, ParamBuilder.returning, setPairs, List.append_assoc]
    | join jt t onp =>
      simp [applyInline, applyParam, ParamBuilder.join, setPairs, List.append_assoc]
    | group_by cols =>
      simp [applyInline, applyParam, ParamBuilder.groupBy, setPairs, List.append_assoc]
    | having c0 =>
      simp [applyInline, applyParam, ParamBuilder.setHaving, setPairs, List.append_assoc]
    | distinct =>
      simp [applyInline, applyParam, ParamBuilder.setDistinct, setPairs, List.append_assoc]

theorem inline_insert_values_extract (cs : List ParamCall) (b : ParamBuilder)
    (h : ∀ c ∈ cs, SafeCall c = true) :
    (applyInlineCalls cs b).insert_values
      = b.insert_values ++ (valueRows cs).map fun vs => vs.map litParam := by
  induction cs generalizing b with
  | nil => simp [applyInlineCalls, valueRows]
  | cons c cs ih =>
    have hc := h c (by simp)
    have hrest : ∀ x ∈ cs, SafeCall x = true := fun x hx => h x (by simp [hx])
    rw [applyInlineCalls_cons, ih _ hrest]
    cases c with
    | where_clause c0 => simp [SafeCall] at hc
    | values vs => simp [SafeCall] at hc
    | set c0 v0 => simp [SafeCall] at hc
    | select cols =>
      simp [applyInline, applyParam, ParamBuilder.select, valueRows, List.append_assoc]
    | fromTable t =>
      simp [applyInline, applyParam, ParamBuilder.fromTable, valueRows, List.append_assoc]
    | where_eq col v =>
      simp [applyInline, applyParam, ParamBuilder.where_eq, valueRows, List.append_assoc]
    | order_by c0 d0 =>
      simp [applyInline, applyParam, ParamBuilder.orderBy, valueRows, List.append_assoc]
    | limit n =>
      simp [applyInline, applyParam, ParamBuilder.setLimit, valueRows, List.append_assoc]
    | offset n =>
      simp [applyInline, applyParam, ParamBuilder.setOffset, valueRows, List.append_assoc]
    | insert_into t cols =>
      simp [applyInline, applyParam, ParamBuilder.insert_into, valueRows, List.append_assoc]
    | values_params vs =>
      simp [applyInline, applyParam, ParamBuilder.values_params, valueRows, List.append_assoc]
    | update t =>
      simp [applyInline, applyParam, ParamBuilder.update, valueRows, List.append_assoc]
    | set_param col v =>
      simp [applyInline, applyParam, ParamBuilder.set_param, valueRows, List.append_assoc]
    | delete_from t =>
      simp [applyInline, applyParam, ParamBuilder.delete_from, valueRows, List.append_assoc]
    | returning cols =>
      simp [applyInline, applyParam, ParamBuilder.returning, valueRows, List.append_assoc]
    | join jt t onp =>
      simp [applyInline, applyParam, ParamBuilder.join, valueRows, List.append_assoc]
    | group_by cols =>
      simp [applyInline, applyParam, ParamBuilder.groupBy, valueRows, List.append_assoc]
    | having c0 =>
      simp [applyInline, applyParam, ParamBuilder.setHaving, valueRows, List.append_assoc]
    | distinct =>
      simp [applyInline, applyParam, ParamBuilder.setDistinct, valueRows, List.append_assoc]

theorem commonShape_inline (cs : List ParamCall) (b₁ b₂ : ParamBuilder)
    (h : commonShape b₁ = commonShape b₂) :
    commonShape (applyInlineCalls cs b₁) = commonShape (applyParamCalls cs b₂) := by
  induction cs generalizing b₁ b₂ with
  | nil => exact h
  | cons c cs ih =>
    rw [applyInlineCalls_cons, applyParamCalls_cons]
    apply ih
    simp only [commonShape, Prod.mk.injEq] at h
    obtain ⟨h1, h2, h3, h4, h5, h6, h7, h8, h9, h10, h11, h12, h13, h14, h15, h16⟩ := h
    cases c <;>
      simp [commonShape, applyInline, applyParam, ParamBuilder.select,
        ParamBuilder.fromTable, ParamBuilder.where_clause, ParamBuilder.where_eq,
        ParamBuilder.orderBy, ParamBuilder.setLimit, ParamBuilder.setOffset,
        ParamBuilder.insert_into, ParamBuilder.values, ParamBuilder.values_params,
        ParamBuilder.update, ParamBuilder.set, ParamBuilder.set_param,
        ParamBuilder.delete_from, ParamBuilder.returning, ParamBuilder.join,
        ParamBuilder.groupBy, ParamBuilder.setHaving, ParamBuilder.setDistinct,
        h1, h2, h3, h4, h5, h6, h7, h8, h9, h10, h11, h12, h13, h14, h15, h16]

/-! ## Kind-consistency and call-order lemmas -/

theorem wherePairs_nil_insert (cs : List ParamCall)
    (hk : ∀ c ∈ cs, RendersInKind c .Insert = true) : wherePairs cs = [] := by
  induction cs with
  | nil => rfl
  | cons c cs ih =>
    have h1 := hk c (by simp)
    have hrest : ∀ x ∈ cs, RendersInKind x .Insert = true :=
      fun x hx => hk x (List.mem_cons_of_mem c hx)
    cases c
    case where_eq col v => simp [RendersInKind] at h1
    all_goals exact ih hrest

theorem setPairs_nil (cs : List ParamCall) (k : QueryType) (hne : k ≠ .Update)
    (hk : ∀ c ∈ cs, RendersInKind c k = true) : setPairs cs = [] := by
  induction cs with
  | nil => rfl
  | cons c cs ih =>
    have h1 := hk c (by simp)
    have hrest : ∀ x ∈ cs, RendersInKind x k = true :=
      fun x hx => hk x (List.mem_cons_of_mem c hx)
    cases c
    case set_param col v =>
      simp only [RendersInKind, beq_iff_eq] at h1
      exact absurd h1 hne
    all_goals exact ih hrest

theorem valueRows_nil (cs : List ParamCall) (k : QueryType) (hne : k ≠ .Insert)
    (hk : ∀ c ∈ cs, RendersInKind c k = true) : valueRows cs = [] := by
  induction cs with
  | nil => rfl
  | cons c cs ih =>
    have h1 := hk c (by simp)
    have hrest : ∀ x ∈ cs, RendersInKind x k = true :=
      fun x hx => hk x (List.mem_cons_of_mem c hx)
    cases c
    case values_params vs =>
      simp only [RendersInKind, beq_iff_eq] at h1
      exact absurd h1 hne
    all_goals exact ih hrest

theorem noSetParam_setPairs (cs : List ParamCall) (h : noSetParam cs = true) :
    setPairs cs = [] := by
  induction cs with
  | nil => rfl
  | cons c cs ih =>
    simp only [noSetParam, List.all_cons, Bool.and_eq_true] at h
    cases c
    case set_param col v => exact absurd h.1 (by simp)
    all_goals exact ih h.2

theorem callParams_where_only (cs : List ParamCall) (hs : setPairs cs = [])
    (hv : valueRows cs = []) :
    callParams cs = (wherePairs cs).map Prod.snd := by
  induction cs with
  | nil => rfl
  | cons c cs ih =>
    cases c
    case where_eq col v => exact congrArg (List.cons v) (ih hs hv)
    case set_param col v => simp [setPairs] at hs
    case values_params vs => simp [valueRows] at hv
    all_goals exact ih hs hv

theorem callParams_rows_only (cs : List ParamCall) (hw : wherePairs cs = [])
    (hs : setPairs cs = []) :
    callParams cs = (valueRows cs).flatten := by
  induction cs with
  | nil => rfl
  | cons c cs ih =>
    cases c
    case where_eq col v => simp [wherePairs] at hw
    case set_param col v => simp [setPairs] at hs
    case values_params vs => exact congrArg (fun l => vs ++ l) (ih hw hs)
    all_goals exact ih hw hs

theorem callParams_update (cs : List ParamCall) (hv : valueRows cs = [])
    (ho : valueOrdered cs = true) :
    callParams cs = (setPairs cs).map Prod.snd ++ (wherePairs cs).map Prod.snd := by
  induction cs with
  | nil => rfl
  | cons c cs ih =>
    cases c
    case where_eq col v =>
      simp only [valueOrdered, Bool.and_eq_true] at ho
      have hsp := noSetParam_setPairs cs ho.1
      have h2 := callParams_where_only cs hsp hv
      show v :: callParams cs
          = (setPairs cs).map Prod.snd ++ (v :: (wherePairs cs).map Prod.snd)
      rw [hsp, h2]
      rfl
    case set_param col v =>
      have h2 := ih hv ho
      show v :: callParams cs
          = ((col, v) :: setPairs cs).map Prod.snd ++ (wherePairs cs).map Prod.snd
      rw [h2]
      rfl
    case values_params vs => simp [valueRows] at hv
    all_goals exact ih hv ho

theorem wherePairs_clean (cs : List ParamCall) (h : ∀ c ∈ cs, SafeCall c = true) :
    ∀ p ∈ wherePairs cs, countQ p.1 = 0 := by
  induction cs with
  | nil => simp [wherePairs]
  | cons c cs ih =>
    have hc := h c (by simp)
    have hrest : ∀ x ∈ cs, SafeCall x = true := fun x hx => h x (List.mem_cons_of_mem c hx)
    cases c
    case where_eq col v =>
      have hcol : countQ col = 0 := by simpa [SafeCall, noQ] using hc
      intro p hp
      rcases List.mem_cons.1 hp with h0 | h0
      · subst h0
        exact hcol
      · exact ih hrest p h0
    case where_clause c0 => simp [SafeCall] at hc
    case values vs => simp [SafeCall] at hc
    case set c0 v0 => simp [SafeCall] at hc
    all_goals exact ih hrest

theorem setPairs_clean (cs : List ParamCall) (h : ∀ c ∈ cs, SafeCall c = true) :
    ∀ p ∈ setPairs cs, countQ p.1 = 0 := by
  induction cs with
  | nil => simp [setPairs]
  | cons c cs ih =>
    have hc := h c (by simp)
    have hrest : ∀ x ∈ cs, SafeCall x = true := fun x hx => h x (List.mem_cons_of_mem c hx)
    cases c
    case set_param col v =>
      have hcol : countQ col = 0 := by simpa [SafeCall, noQ] using hc
      intro p hp
      rcases List.mem_cons.1 hp with h0 | h0
      · subst h0
        exact hcol
      · exact ih hrest p h0
    case where_clause c0 => simp [SafeCall] at hc
    case values vs => simp [SafeCall] at hc
    case set c0 v0 => simp [SafeCall] at hc
    all_goals exact ih hrest

/-! ## Cleanliness of the non-parameter fields under safe calls -/

theorem cleanState_step (b : ParamBuilder) (c : ParamCall) (hb : CleanState b)
    (hc : SafeCall c = true) : CleanState (applyParam b c) := by
  obtain ⟨a1, a2, a3, a4, a5, a6, a7, a8, a9, a10, a11⟩ := hb
  cases c with
  | select cols =>
    have h1 : ∀ x ∈ cols, countQ x = 0 := by
      simpa [SafeCall, noQ, List.all_eq_true] using hc
    exact ⟨h1, a2, a3, a4, a5, a6, a7, a8, a9, a10, a11⟩
  | fromTable t =>
    have h1 : countQ t = 0 := by simpa [SafeCall, noQ] using hc
    refine ⟨a1, ?_, a3, a4, a5, a6, a7, a8, a9, a10, a11⟩
    intro t' ht'
    injection ht' with h2
    subst h2
    exact h1
  | where_clause c0 => simp [SafeCall] at hc
  | where_eq col v => exact ⟨a1, a2, a3, a4, a5, a6, a7, a8, a9, a10, a11⟩
  | order_by c0 d0 =>
    have h1 : countQ c0 = 0 := by simpa [SafeCall, noQ] using hc
    refine ⟨a1, a2, a3, a4, a5, ?_, a7, a8, a9, a10, a11⟩
    intro p hp
    rcases List.mem_append.1 hp with h0 | h0
    · exact a6 p h0
    · simp only [List.mem_singleton] at h0
      subst h0
      exact h1
  | limit n => exact ⟨a1, a2, a3, a4, a5, a6, a7, a8, a9, a10, a11⟩
  | offset n => exact ⟨a1, a2, a3, a4, a5, a6, a7, a8, a9, a10, a11⟩
  | insert_into t cols =>
    have h1 : countQ t = 0 ∧ ∀ x ∈ cols, countQ x = 0 := by
      simpa [SafeCall, noQ, Bool.and_eq_true, List.all_eq_true] using hc
    refine ⟨a1, a2, a3, a4, a5, a6, ?_, h1.2, a9, a10, a11⟩
    intro t' ht'
    injection ht' with h2
    subst h2
    exact h1.1
  | values vs => simp [SafeCall] at hc
  | values_params vs => exact ⟨a1, a2, a3, a4, a5, a6, a7, a8, a9, a10, a11⟩
  | update t =>
    have h1 : countQ t = 0 := by simpa [SafeCall, noQ] using hc
    refine ⟨a1, a2, a3, a4, a5, a6, a7, a8, ?_, a10, a11⟩
    intro t' ht'
    injection ht' with h2
    subst h2
    exact h1
  | set c0 v0 => simp [SafeCall] at hc
  | set_param col v => exact ⟨a1, a2, a3, a4, a5, a6, a7, a8, a9, a10, a11⟩
  | delete_from t =>
    have h1 : countQ t = 0 := by simpa [SafeCall, noQ] using hc
    refine ⟨a1, a2, a3, a4, a5, a6, a7, a8, a9, ?_, a11⟩
    intro t' ht'
    injection ht' with h2
    subst h2
    exact h1
  | returning cols =>
    have h1 : ∀ x ∈ cols, countQ x = 0 := by
      simpa [SafeCall, noQ, List.all_eq_true] using hc
    exact ⟨a1, a2, a3, a4, a5, a6, a7, a8, a9, a10, h1⟩
  | join jt t onp =>
    have h1 : countQ t = 0 ∧ countQ onp = 0 := by
      simpa [SafeCall, noQ, Bool.and_eq_true] using hc
    refine ⟨a1, a2, ?_, a4, a5, a6, a7, a8, a9, a10, a11⟩
    intro j hj
    rcases List.mem_append.1 hj with h0 | h0
    · exact a3 j h0
    · simp only [List.mem_singleton] at h0
      subst h0
      exact h1
  | group_by cols =>
    have h1 : ∀ x ∈ cols, countQ x = 0 := by
      simpa [SafeCall, noQ, List.all_eq_true] using hc
    refine ⟨a1, a2, a3, ?_, a5, a6, a7, a8, a9, a10, a11⟩
    intro x hx
    rcases List.mem_append.1 hx with h0 | h0
    · exact a4 x h0
    · exact h1 x h0
  | having c0 =>
    have h1 : countQ c0 = 0 := by simpa [SafeCall, noQ] using hc
    refine ⟨a1, a2, a3, a4, ?_, a6, a7, a8, a9, a10, a11⟩
    intro x hx
    injection hx with h2
    subst h2
    exact h1
  | distinct => exact ⟨a1, a2, a3, a4, a5, a6, a7, a8, a9, a10, a11⟩

theorem cleanState_new (d : Dialect) : CleanState (ParamBuilder.new d) := by
  refine ⟨?_, ?_, ?_, ?_, ?_, ?_, ?_, ?_, ?_, ?_, ?_⟩ <;> simp [ParamBuilder.new]

theorem cleanState_calls (cs : List ParamCall) (b : ParamBuilder) (hb : CleanState b)
    (h : ∀ c ∈ cs, SafeCall c = true) : CleanState (applyParamCalls cs b) := by
  induction cs generalizing b with
  | nil => exact hb
  | cons c cs ih =>
    rw [applyParamCalls_cons]
    exact ih (applyParam b c) (cleanState_step b c hb (h c (by simp)))
      (fun x hx => h x (List.mem_cons_of_mem c hx))

/-! ## Placeholder counts of the rendered segments -/

theorem countQ_render_join (jt : JoinType) : countQ jt.render = 0 := by
  cases jt <;> rfl

theorem countQ_render_ord (d : OrderDirection) : countQ d.render = 0 := by
  cases d <;> rfl

theorem countQ_foldl_append (l : List String) (acc : String)
    (h : ∀ s ∈ l, countQ s = 0) (ha : countQ acc = 0) :
    countQ (l.foldl (· ++ ·) acc) = 0 := by
  induction l generalizing acc with
  | nil => exact ha
  | cons x xs ih =>
    have hx := h x (by simp)
    show countQ (xs.foldl (· ++ ·) (acc ++ x)) = 0
    exact ih (acc ++ x) (fun s hs => h s (List.mem_cons_of_mem x hs))
      (by rw [countQ_append, ha, hx])

theorem countQ_string_join (l : List String) (h : ∀ s ∈ l, countQ s = 0) :
    countQ (String.join l) = 0 :=
  countQ_foldl_append l "" h rfl

theorem countQ_joinsSeg (b : ParamBuilder)
    (h : ∀ j ∈ b.joins, countQ (j.2.1 : String) = 0 ∧ countQ j.2.2 = 0) :
    countQ b.joinsSeg = 0 := by
  apply countQ_string_join
  intro s hs
  rcases List.mem_map.1 hs with ⟨j, hj, rfl⟩
  have h2 := h j hj
  have hsp : countQ " " = 0 := by rfl
  have hon : countQ " ON " = 0 := by rfl
  rw [countQ_append, countQ_append, countQ_append, countQ_append, countQ_append,
    countQ_render_join, h2.1, h2.2, hsp, hon]

theorem countQ_groupSeg (b : ParamBuilder) (h : ∀ x ∈ b.group_by, countQ x = 0) :
    countQ b.groupSeg = 0 := by
  unfold ParamBuilder.groupSeg
  split
  · rfl
  · rw [countQ_append, countQ_joinSep_zero ", " (by rfl) _ h]
    rfl

theorem countQ_havingSeg (b : ParamBuilder)
    (h : ∀ x, b.having = some x → countQ x = 0) : countQ b.havingSeg = 0 := by
  unfold ParamBuilder.havingSeg
  cases hh : b.having with
  | none => rfl
  | some x =>
    rw [countQ_append, h x hh]
    rfl

theorem countQ_orderSeg (b : ParamBuilder) (h : ∀ p ∈ b.order_by, countQ p.1 = 0) :
    countQ b.orderSeg = 0 := by
  unfold ParamBuilder.orderSeg
  split
  · rfl
  · rw [countQ_append, countQ_joinSep_zero ", " (by rfl)]
    · rfl
    · intro s hs
      rcases List.mem_map.1 hs with ⟨p, hp, rfl⟩
      rw [countQ_append, countQ_append, h p hp, countQ_render_ord]
      rfl

theorem countQ_limitSeg (b : ParamBuilder) : countQ b.limitSeg = 0 := by
  unfold ParamBuilder.limitSeg
  cases b.limit with
  | none => rfl
  | some n =>
    rw [countQ_append, countQ_natLit]
    rfl

theorem countQ_offsetSeg (b : ParamBuilder) : countQ b.offsetSeg = 0 := by
  unfold ParamBuilder.offsetSeg
  cases b.offset with
  | none => rfl
  | some n =>
    rw [countQ_append, countQ_natLit]
    rfl

theorem countQ_returningSuffix (b : ParamBuilder)
    (h : ∀ x ∈ b.returning_columns, countQ x = 0) : countQ b.returningSuffix = 0 := by
  unfold ParamBuilder.returningSuffix
  split
  · rw [countQ_append, countQ_joinSep_zero ", " (by rfl) _ h]
    rfl
  · rfl

theorem countQ_whereSeg_pairs (b : ParamBuilder) (pairs : List (String × QueryValue))
    (hw : b.where_clauses = pairs.map fun p => p.1 ++ " = ?")
    (hcl : ∀ p ∈ pairs, countQ p.1 = 0) :
    countQ b.whereSeg = pairs.length := by
  unfold ParamBuilder.whereSeg
  rw [hw]
  cases pairs with
  | nil => rfl
  | cons p ps =>
    rw [if_neg (by simp)]
    have h0 : countQ " WHERE " = 0 := by rfl
    rw [countQ_append, h0, countQ_where_join _ _ (by rfl) hcl, Nat.zero_add]

theorem substQ_whereSeg_pairs (b bI : ParamBuilder) (pairs : List (String × QueryValue))
    (hw : b.where_clauses = pairs.map fun p => p.1 ++ " = ?")
    (hwI : bI.where_clauses = pairs.map fun p => p.1 ++ " = " ++ litParam p.2)
    (hcl : ∀ p ∈ pairs, countQ p.1 = 0) :
    substQ b.whereSeg (pairs.map fun p => litParam p.2) = bI.whereSeg := by
  unfold ParamBuilder.whereSeg
  rw [hw, hwI]
  cases pairs with
  | nil => rfl
  | cons p ps =>
    rw [if_neg (by simp), if_neg (by simp),
      substQ_append_noQ_left _ _ _ (by rfl),
      substQ_where_join _ _ (by rfl) hcl]

theorem setSeg_pairs (b : ParamBuilder) (pairs : List (String × QueryValue))
    (hs : b.update_sets = pairs.map fun p => (p.1, ("?" : String))) :
    b.setSeg = joinSep ", " (pairs.map fun p => p.1 ++ " = ?") := by
  unfold ParamBuilder.setSeg
  rw [hs, List.map_map]
  congr 1
  apply List.map_congr_left
  intro p _
  exact fragment_norm p.1

theorem setSeg_inline (bI : ParamBuilder) (pairs : List (String × QueryValue))
    (hs : bI.update_sets = pairs.map fun p => (p.1, litParam p.2)) :
    bI.setSeg = joinSep ", " (pairs.map fun p => p.1 ++ " = " ++ litParam p.2) := by
  unfold ParamBuilder.setSeg
  rw [hs, List.map_map]
  rfl

theorem valuesSeg_rows (b : ParamBuilder) (rows : List (List QueryValue))
    (hv : b.insert_values = rows.map fun vs => vs.map fun _ => ("?" : String)) :
    b.valuesSeg
      = joinSep ", " (rows.map fun vs => "(" ++ joinSep ", " (vs.map fun _ => "?") ++ ")") := by
  unfold ParamBuilder.valuesSeg
  rw [hv, List.map_map]
  rfl

theorem valuesSeg_inline (bI : ParamBuilder) (rows : List (List QueryValue))
    (hv : bI.insert_values = rows.map fun vs => vs.map litParam) :
    bI.valuesSeg
      = joinSep ", " (rows.map fun vs => "(" ++ joinSep ", " (vs.map litParam) ++ ")") := by
  unfold ParamBuilder.valuesSeg
  rw [hv, List.map_map]
  rfl

/-! ## Build dispatch on the spec-modelled builder -/

theorem pbuild_select (b : ParamBuilder) (h : b.query_type = .Select) :
    b.build = b.build_select := by
  unfold ParamBuilder.build
  rw [h]

theorem pbuild_insert (b : ParamBuilder) (h : b.query_type = .Insert) :
    b.build = b.build_insert := by
  unfold ParamBuilder.build
  rw [h]

theorem pbuild_update (b : ParamBuilder) (h : b.query_type = .Update) :
    b.build = b.build_update := by
  unfold ParamBuilder.build
  rw [h]

theorem pbuild_delete (b : ParamBuilder) (h : b.query_type = .Delete) :
    b.build = b.build_delete := by
  unfold ParamBuilder.build
  rw [h]

theorem pbuild_select_none (b : ParamBuilder) (h : b.table = none) :
    b.build_select = .error (.QueryError "No table specified for SELECT") := by
  unfold ParamBuilder.build_select
  rw [h]

theorem pbuild_select_some (b : ParamBuilder) (t : String) (h : b.table = some t) :
    b.build_select = .ok ("SELECT " ++ (if b.distinct then "DISTINCT " else "")
      ++ (if b.columns.isEmpty then "*" else joinSep ", " b.columns)
      ++ " FROM " ++ t ++ b.joinsSeg ++ b.whereSeg ++ b.groupSeg ++ b.havingSeg
      ++ b.orderSeg ++ b.limitSeg ++ b.offsetSeg) := by
  unfold ParamBuilder.build_select
  rw [h]

theorem pbuild_insert_ok (b : ParamBuilder) (t : String) (h : b.insert_table = some t)
    (hc : b.insert_columns.isEmpty = false) (hv : b.insert_values.isEmpty = false) :
    b.build_insert = .ok ("INSERT INTO " ++ t ++ " (" ++ joinSep ", " b.insert_columns
      ++ ") VALUES " ++ b.valuesSeg ++ b.returningSuffix) := by
  unfold ParamBuilder.build_insert
  rw [h]
  simp [hc, hv]

theorem pbuild_update_ok (b : ParamBuilder) (t : String) (h : b.update_table = some t)
    (hs : b.update_sets.isEmpty = false) :
    b.build_update = .ok ("UPDATE " ++ t ++ " SET " ++ b.setSeg ++ b.whereSeg
      ++ b.returningSuffix) := by
  unfold ParamBuilder.build_update
  rw [h]
  simp [hs]

theorem pbuild_delete_ok (b : ParamBuilder) (t : String) (h : b.delete_table = some t) :
    b.build_delete = .ok ("DELETE FROM " ++ t ++ b.whereSeg ++ b.returningSuffix) := by
  unfold ParamBuilder.build_delete
  rw [h]

/-! ## The placeholder/parameter correspondence, per statement kind -/

theorem c1_select (d : Dialect) (cs : List ParamCall) (sql : String)
    (hsafe : ∀ c ∈ cs, SafeCall c = true)
    (hkind : ∀ c ∈ cs, RendersInKind c .Select = true)
    (hqt : (applyParamCalls cs (ParamBuilder.new d)).query_type = .Select)
    (hb : (applyParamCalls cs (ParamBuilder.new d)).build = .ok sql) :
    countQ sql = (applyParamCalls cs (ParamBuilder.new d)).params.length ∧
    (applyInlineCalls cs (ParamBuilder.new d)).build
      = .ok (substQ sql ((applyParamCalls cs (ParamBuilder.new d)).params.map litParam)) := by
  obtain ⟨c1, c2, c3, c4, c5, c6, c7, c8, c9, c10, c11⟩ :=
    cleanState_calls cs (ParamBuilder.new d) (cleanState_new d) hsafe
  have hparams : (applyParamCalls cs (ParamBuilder.new d)).params = callParams cs := by
    simpa [ParamBuilder.new] using params_extract cs (ParamBuilder.new d)
  have hwc : (applyParamCalls cs (ParamBuilder.new d)).where_clauses
      = (wherePairs cs).map fun p => p.1 ++ " = ?" := by
    simpa [ParamBuilder.new] using where_clauses_extract cs (ParamBuilder.new d) hsafe
  have hwcI : (applyInlineCalls cs (ParamBuilder.new d)).where_clauses
      = (wherePairs cs).map fun p => p.1 ++ " = " ++ litParam p.2 := by
    simpa [ParamBuilder.new] using inline_where_clauses_extract cs (ParamBuilder.new d) hsafe
  have hcsh := commonShape_inline cs (ParamBuilder.new d) (ParamBuilder.new d) rfl
  simp only [commonShape, Prod.mk.injEq] at hcsh
  obtain ⟨e1, e2, e3, e4, e5, e6, e7, e8, e9, e10, e11, e12, e13, e14, e15, e16⟩ := hcsh
  have hwpc := wherePairs_clean cs hsafe
  have hsp : setPairs cs = [] := setPairs_nil cs .Select (by decide) hkind
  have hvr : valueRows cs = [] := valueRows_nil cs .Select (by decide) hkind
  have hcp : callParams cs = (wherePairs cs).map Prod.snd :=
    callParams_where_only cs hsp hvr
  rw [pbuild_select _ hqt] at hb
  cases ht : (applyParamCalls cs (ParamBuilder.new d)).table with
  | none =>
    rw [pbuild_select_none _ ht] at hb
    exact absurd hb (by simp)
  | some t =>
    rw [pbuild_select_some _ t ht] at hb
    injection hb with hsql
    subst hsql
    have hselq : countQ "SELECT " = 0 := by rfl
    have hdstq : countQ (if (applyParamCalls cs (ParamBuilder.new d)).distinct
        then "DISTINCT " else "") = 0 := by
      split <;> rfl
    have hcolsq : countQ (if (applyParamCalls cs (ParamBuilder.new d)).columns.isEmpty
        then "*" else joinSep ", " (applyParamCalls cs (ParamBuilder.new d)).columns) = 0 := by
      split
      · rfl
      · exact countQ_joinSep_zero ", " (by rfl) _ c1
    have hfromq : countQ " FROM " = 0 := by rfl
    have htq : countQ t = 0 := c2 t ht
    have hjq := countQ_joinsSeg _ c3
    have hgq := countQ_groupSeg _ c4
    have hhq := countQ_havingSeg _ c5
    have hoq := countQ_orderSeg _ c6
    have hlq := countQ_limitSeg (applyParamCalls cs (ParamBuilder.new d))
    have hofq := countQ_offsetSeg (applyParamCalls cs (ParamBuilder.new d))
    have hwq := countQ_whereSeg_pairs _ (wherePairs cs) hwc hwpc
    constructor
    · rw [countQ_append, countQ_append, countQ_append, countQ_append, countQ_append,
        countQ_append, countQ_append, countQ_append, countQ_append, countQ_append,
        countQ_append,
        hselq, hdstq, hcolsq, hfromq, htq, hjq, hgq, hhq, hoq, hlq, hofq, hwq,
        hparams, hcp, List.length_map]
      omega
    · rw [pbuild_select _ (by rw [e2, hqt]),
        pbuild_select_some _ t (by rw [e4, ht])]
      have hlits : (applyParamCalls cs (ParamBuilder.new d)).params.map litParam
          = (wherePairs cs).map fun p => litParam p.2 := by
        rw [hparams, hcp, List.map_map]
        rfl
      rw [hlits]
      have hjEq : (applyInlineCalls cs (ParamBuilder.new d)).joinsSeg
          = (applyParamCalls cs (ParamBuilder.new d)).joinsSeg := by
        unfold ParamBuilder.joinsSeg
        rw [e5]
      have hgEq : (applyInlineCalls cs (ParamBuilder.new d)).groupSeg
          = (applyParamCalls cs (ParamBuilder.new d)).groupSeg := by
        unfold ParamBuilder.groupSeg
        rw [e6]
      have hhEq : (applyInlineCalls cs (ParamBuilder.new d)).havingSeg
          = (applyParamCalls cs (ParamBuilder.new d)).havingSeg := by
        unfold ParamBuilder.havingSeg
        rw [e7]
      have hoEq : (applyInlineCalls cs (ParamBuilder.new d)).orderSeg
          = (applyParamCalls cs (ParamBuilder.new d)).orderSeg := by
        unfold ParamBuilder.orderSeg
        rw [e8]
      have hlEq : (applyInlineCalls cs (ParamBuilder.new d)).limitSeg
          = (applyParamCalls cs (ParamBuilder.new d)).limitSeg := by
        unfold ParamBuilder.limitSeg
        rw [e9]
      have hofEq : (applyInlineCalls cs (ParamBuilder.new d)).offsetSeg
          = (applyParamCalls cs (ParamBuilder.new d)).offsetSeg := by
        unfold ParamBuilder.offsetSeg
        rw [e10]
      simp only [string_append_assoc]
      rw [substQ_append_noQ_left _ _ _ hselq,
        substQ_append_noQ_left _ _ _ hdstq,
        substQ_append_noQ_left _ _ _ hcolsq,
        substQ_append_noQ_left _ _ _ hfromq,
        substQ_append_noQ_left _ _ _ htq,
        substQ_append_noQ_left _ _ _ hjq,
        substQ_append_noQ_right _ _ _ (by simp [hwq, List.length_map])
          (by simp [countQ_append, hgq, hhq, hoq, hlq, hofq]),
        substQ_whereSeg_pairs _ _ (wherePairs cs) hwc hwcI hwpc,
        hjEq, hgEq, hhEq, hoEq, hlEq, hofEq, e11, e3]

theorem c1_insert (d : Dialect) (cs : List ParamCall) (sql : String)
    (hsafe : ∀ c ∈ cs, SafeCall c = true)
    (hkind : ∀ c ∈ cs, RendersInKind c .Insert = true)
    (hqt : (applyParamCalls cs (ParamBuilder.new d)).query_type = .Insert)
    (hb : (applyParamCalls cs (ParamBuilder.new d)).build = .ok sql) :
    countQ sql = (applyParamCalls cs (ParamBuilder.new d)).params.length ∧
    (applyInlineCalls cs (ParamBuilder.new d)).build
      = .ok (substQ sql ((applyParamCalls cs (ParamBuilder.new d)).params.map litParam)) := by
  obtain ⟨c1, c2, c3, c4, c5, c6, c7, c8, c9, c10, c11⟩ :=
    cleanState_calls cs (ParamBuilder.new d) (cleanState_new d) hsafe
  have hparams : (applyParamCalls cs (ParamBuilder.new d)).params = callParams cs := by
    simpa [ParamBuilder.new] using params_extract cs (ParamBuilder.new d)
  have hiv : (applyParamCalls cs (ParamBuilder.new d)).insert_values
      = (valueRows cs).map fun vs => vs.map fun _ => ("?" : String) := by
    simpa [ParamBuilder.new] using insert_values_extract cs (ParamBuilder.new d) hsafe
  have hivI : (applyInlineCalls cs (ParamBuilder.new d)).insert_values
      = (valueRows cs).map fun vs => vs.map litParam := by
    simpa [ParamBuilder.new] using inline_insert_values_extract cs (ParamBuilder.new d) hsafe
  have hcsh := commonShape_inline cs (ParamBuilder.new d) (ParamBuilder.new d) rfl
  simp only [commonShape, Prod.mk.injEq] at hcsh
  obtain ⟨e1, e2, e3, e4, e5, e6, e7, e8, e9, e10, e11, e12, e13, e14, e15, e16⟩ := hcsh
  have hwp : wherePairs cs = [] := wherePairs_nil_insert cs hkind
  have hsp : setPairs cs = [] := setPairs_nil cs .Insert (by decide) hkind
  have hcp : callParams cs = (valueRows cs).flatten :=
    callParams_rows_only cs hwp hsp
  rw [pbuild_insert _ hqt] at hb
  cases hit : (applyParamCalls cs (ParamBuilder.new d)).insert_table with
  | none =>
    unfold ParamBuilder.build_insert at hb
    rw [hit] at hb
    exact absurd hb (by simp)
  | some t =>
    cases hic : (applyParamCalls cs (ParamBuilder.new d)).insert_columns.isEmpty with
    | true =>
      unfold ParamBuilder.build_insert at hb
      rw [hit] at hb
      simp [hic] at hb
    | false =>
      cases hive : (applyParamCalls cs (ParamBuilder.new d)).insert_values.isEmpty with
      | true =>
        unfold ParamBuilder.build_insert at hb
        rw [hit] at hb
        simp [hic, hive] at hb
      | false =>
        rw [pbuild_insert_ok _ t hit hic hive] at hb
        injection hb with hsql
        subst hsql
        have h1 : countQ "INSERT INTO " = 0 := by rfl
        have h2 : countQ t = 0 := c7 t hit
        have h3 : countQ " (" = 0 := by rfl
        have h4 : countQ (joinSep ", "
            (applyParamCalls cs (ParamBuilder.new d)).insert_columns) = 0 :=
          countQ_joinSep_zero ", " (by rfl) _ c8
        have h5 : countQ ") VALUES " = 0 := by rfl
        have h6 : (applyParamCalls cs (ParamBuilder.new d)).valuesSeg
            = joinSep ", " ((valueRows cs).map
                fun vs => "(" ++ joinSep ", " (vs.map fun _ => "?") ++ ")") :=
          valuesSeg_rows _ _ hiv
        have h7 : countQ (applyParamCalls cs (ParamBuilder.new d)).valuesSeg
            = ((valueRows cs).map List.length).sum := by
          rw [h6, countQ_qrows]
        have h8 := countQ_returningSuffix _ c11
        constructor
        · rw [countQ_append, countQ_append, countQ_append, countQ_append, countQ_append,
            countQ_append, h1, h2, h3, h4, h5, h7, h8, hparams, hcp,
            List.length_flatten]
          omega
        · have hrne : valueRows cs ≠ [] := by
            intro h0
            rw [hiv, h0] at hive
            simp at hive
          have hivI' : (applyInlineCalls cs (ParamBuilder.new d)).insert_values.isEmpty
              = false := by
            rw [hivI]
            cases hrows : valueRows cs with
            | nil => exact absurd hrows hrne
            | cons a as => rfl
          rw [pbuild_insert _ (by rw [e2, hqt]),
            pbuild_insert_ok _ t (by rw [e12, hit]) (by rw [e13]; exact hic) hivI']
          have hflen : (((valueRows cs).map fun vs => vs.map litParam).flatten).length
              = ((valueRows cs).map List.length).sum := by
            rw [List.length_flatten, List.map_map]
            congr 1
            apply List.map_congr_left
            intro vs _
            simp
          have hlits : (applyParamCalls cs (ParamBuilder.new d)).params.map litParam
              = ((valueRows cs).map fun vs => vs.map litParam).flatten := by
            rw [hparams, hcp, List.map_flatten]
          rw [hlits]
          have hvEqI : (applyInlineCalls cs (ParamBuilder.new d)).valuesSeg
              = joinSep ", " ((valueRows cs).map
                  fun vs => "(" ++ joinSep ", " (vs.map litParam) ++ ")") :=
            valuesSeg_inline _ _ hivI
          have hretEq : (applyInlineCalls cs (ParamBuilder.new d)).returningSuffix
              = (applyParamCalls cs (ParamBuilder.new d)).returningSuffix := by
            unfold ParamBuilder.returningSuffix
            rw [e1, e16]
          simp only [string_append_assoc]
          rw [substQ_append_noQ_left _ _ _ h1,
            substQ_append_noQ_left _ _ _ h2,
            substQ_append_noQ_left _ _ _ h3,
            substQ_append_noQ_left _ _ _ h4,
            substQ_append_noQ_left _ _ _ h5,
            h6,
            substQ_append_noQ_right _ _ _ (by rw [countQ_qrows, hflen]) h8,
            substQ_qrows, e13, hvEqI, hretEq]

theorem c1_update (d : Dialect) (cs : List ParamCall) (sql : String)
    (hsafe : ∀ c ∈ cs, SafeCall c = true)
    (hkind : ∀ c ∈ cs, RendersInKind c .Update = true)
    (hord : valueOrdered cs = true)
    (hqt : (applyParamCalls cs (ParamBuilder.new d)).query_type = .Update)
    (hb : (applyParamCalls cs (ParamBuilder.new d)).build = .ok sql) :
    countQ sql = (applyParamCalls cs (ParamBuilder.new d)).params.length ∧
    (applyInlineCalls cs (ParamBuilder.new d)).build
      = .ok (substQ sql ((applyParamCalls cs (ParamBuilder.new d)).params.map litParam)) := by
  obtain ⟨c1, c2, c3, c4, c5, c6, c7, c8, c9, c10, c11⟩ :=
    cleanState_calls cs (ParamBuilder.new d) (cleanState_new d) hsafe
  have hparams : (applyParamCalls cs (ParamBuilder.new d)).params = callParams cs := by
    simpa [ParamBuilder.new] using params_extract cs (ParamBuilder.new d)
  have hwc : (applyParamCalls cs (ParamBuilder.new d)).where_clauses
      = (wherePairs cs).map fun p => p.1 ++ " = ?" := by
    simpa [ParamBuilder.new] using where_clauses_extract cs (ParamBuilder.new d) hsafe
  have hwcI : (applyInlineCalls cs (ParamBuilder.new d)).where_clauses
      = (wherePairs cs).map fun p => p.1 ++ " = " ++ litParam p.2 := by
    simpa [ParamBuilder.new] using inline_where_clauses_extract cs (ParamBuilder.new d) hsafe
  have hus : (applyParamCalls cs (ParamBuilder.new d)).update_sets
      = (setPairs cs).map fun p => (p.1, ("?" : String)) := by
    simpa [ParamBuilder.new] using update_sets_extract cs (ParamBuilder.new d) hsafe
  have husI : (applyInlineCalls cs (ParamBuilder.new d)).update_sets
      = (setPairs cs).map fun p => (p.1, litParam p.2) := by
    simpa [ParamBuilder.new] using inline_update_sets_extract cs (ParamBuilder.new d) hsafe
  have hcsh := commonShape_inline cs (ParamBuilder.new d) (ParamBuilder.new d) rfl
  simp only [commonShape, Prod.mk.injEq] at hcsh
  obtain ⟨e1, e2, e3, e4, e5, e6, e7, e8, e9, e10, e11, e12, e13, e14, e15, e16⟩ := hcsh
  have hwpc := wherePairs_clean cs hsafe
  have hspc := setPairs_clean cs hsafe
  have hvr : valueRows cs = [] := valueRows_nil cs .Update (by decide) hkind
  have hcp : callParams cs = (setPairs cs).map Prod.snd ++ (wherePairs cs).map Prod.snd :=
    callParams_update cs hvr hord
  rw [pbuild_update _ hqt] at hb
  cases hut : (applyParamCalls cs (ParamBuilder.new d)).update_table with
  | none =>
    unfold ParamBuilder.build_update at hb
    rw [hut] at hb
    exact absurd hb (by simp)
  | some t =>
    cases hsE : (applyParamCalls cs (ParamBuilder.new d)).update_sets.isEmpty with
    | true =>
      unfold ParamBuilder.build_update at hb
      rw [hut] at hb
      simp [hsE] at hb
    | false =>
      rw [pbuild_update_ok _ t hut hsE] at hb
      injection hb with hsql
      subst hsql
      have h1 : countQ "UPDATE " = 0 := by rfl
      have h2 : countQ t = 0 := c9 t hut
      have h3 : countQ " SET " = 0 := by rfl
      have hsets : (applyParamCalls cs (ParamBuilder.new d)).setSeg
          = joinSep ", " ((setPairs cs).map fun p => p.1 ++ " = ?") :=
        setSeg_pairs _ _ hus
      have h4 : countQ (applyParamCalls cs (ParamBuilder.new d)).setSeg
          = (setPairs cs).length := by
        rw [hsets, countQ_where_join _ _ (by rfl) hspc]
      have hwq := countQ_whereSeg_pairs _ (wherePairs cs) hwc hwpc
      have h8 := countQ_returningSuffix _ c11
      constructor
      · rw [countQ_append, countQ_append, countQ_append, countQ_append, countQ_append,
          h1, h2, h3, h4, hwq, h8, hparams, hcp, List.length_append,
          List.length_map, List.length_map]
        omega
      · have hpne : setPairs cs ≠ [] := by
          intro h0
          rw [hus, h0] at hsE
          simp at hsE
        have husI' : (applyInlineCalls cs (ParamBuilder.new d)).update_sets.isEmpty
            = false := by
          rw [husI]
          cases hps : setPairs cs with
          | nil => exact absurd hps hpne
          | cons a as => rfl
        rw [pbuild_update _ (by rw [e2, hqt]),
          pbuild_update_ok _ t (by rw [e14, hut]) husI']
        have hlits : (applyParamCalls cs (ParamBuilder.new d)).params.map litParam
            = ((setPairs cs).map fun p => litParam p.2)
              ++ ((wherePairs cs).map fun p => litParam p.2) := by
          rw [hparams, hcp, List.map_append, List.map_map, List.map_map]
          rfl
        rw [hlits]
        have hsetsI : (applyInlineCalls cs (ParamBuilder.new d)).setSeg
            = joinSep ", " ((setPairs cs).map fun p => p.1 ++ " = " ++ litParam p.2) :=
          setSeg_inline _ _ husI
        have hretEq : (applyInlineCalls cs (ParamBuilder.new d)).returningSuffix
            = (applyParamCalls cs (ParamBuilder.new d)).returningSuffix := by
          unfold ParamBuilder.returningSuffix
          rw [e1, e16]
        simp only [string_append_assoc]
        rw [substQ_append_noQ_left _ _ _ h1,
          substQ_append_noQ_left _ _ _ h2,
          substQ_append_noQ_left _ _ _ h3,
          hsets,
          substQ_append_exact _ _ _ _
            (by rw [countQ_where_join _ _ (by rfl) hspc, List.length_map]),
          substQ_where_join _ _ (by rfl) hspc,
          substQ_append_noQ_right _ _ _ (by rw [hwq, List.length_map]) h8,
          substQ_whereSeg_pairs _ _ (wherePairs cs) hwc hwcI hwpc,
          hsetsI, hretEq]

theorem c1_delete (d : Dialect) (cs : List ParamCall) (sql : String)
    (hsafe : ∀ c ∈ cs, SafeCall c = true)
    (hkind : ∀ c ∈ cs, RendersInKind c .Delete = true)
    (hqt : (applyParamCalls cs (ParamBuilder.new d)).query_type = .Delete)
    (hb : (applyParamCalls cs (ParamBuilder.new d)).build = .ok sql) :
    countQ sql = (applyParamCalls cs (ParamBuilder.new d)).params.length ∧
    (applyInlineCalls cs (ParamBuilder.new d)).build
      = .ok (substQ sql ((applyParamCalls cs (ParamBuilder.new d)).params.map litParam)) := by
  obtain ⟨c1, c2, c3, c4, c5, c6, c7, c8, c9, c10, c11⟩ :=
    cleanState_calls cs (ParamBuilder.new d) (cleanState_new d) hsafe
  have hparams : (applyParamCalls cs (ParamBuilder.new d)).params = callParams cs := by
    simpa [ParamBuilder.new] using params_extract cs (ParamBuilder.new d)
  have hwc : (applyParamCalls cs (ParamBuilder.new d)).where_clauses
      = (wherePairs cs).map fun p => p.1 ++ " = ?" := by
    simpa [ParamBuilder.new] using where_clauses_extract cs (ParamBuilder.new d) hsafe
  have hwcI : (applyInlineCalls cs (ParamBuilder.new d)).where_clauses
      = (wherePairs cs).map fun p => p.1 ++ " = " ++ litParam p.2 := by
    simpa [ParamBuilder.new] using inline_where_clauses_extract cs (ParamBuilder.new d) hsafe
  have hcsh := commonShape_inline cs (ParamBuilder.new d) (ParamBuilder.new d) rfl
  simp only [commonShape, Prod.mk.injEq] at hcsh
  obtain ⟨e1, e2, e3, e4, e5, e6, e7, e8, e9, e10, e11, e12, e13, e14, e15, e16⟩ := hcsh
  have hwpc := wherePairs_clean cs hsafe
  have hsp : setPairs cs = [] := setPairs_nil cs .Delete (by decide) hkind
  have hvr : valueRows cs = [] := valueRows_nil cs .Delete (by decide) hkind
  have hcp : callParams cs = (wherePairs cs).map Prod.snd :=
    callParams_where_only cs hsp hvr
  rw [pbuild_delete _ hqt] at hb
  cases ht : (applyParamCalls cs (ParamBuilder.new d)).delete_table with
  | none =>
    unfold ParamBuilder.build_delete at hb
    rw [ht] at hb
    exact absurd hb (by simp)
  | some t =>
    rw [pbuild_delete_ok _ t ht] at hb
    injection hb with hsql
    subst hsql
    have h1 : countQ "DELETE FROM " = 0 := by rfl
    have h2 : countQ t = 0 := c10 t ht
    have hwq := countQ_whereSeg_pairs _ (wherePairs cs) hwc hwpc
    have h8 := countQ_returningSuffix _ c11
    constructor
    · rw [countQ_append, countQ_append, countQ_append,
        h1, h2, hwq, h8, hparams, hcp, List.length_map]
      omega
    · rw [pbuild_delete _ (by rw [e2, hqt]),
        pbuild_delete_ok _ t (by rw [e15, ht])]
      have hlits : (applyParamCalls cs (ParamBuilder.new d)).params.map litParam
          = (wherePairs cs).map fun p => litParam p.2 := by
        rw [hparams, hcp, List.map_map]
        rfl
      rw [hlits]
      have hretEq : (applyInlineCalls cs (ParamBuilder.new d)).returningSuffix
          = (applyParamCalls cs (ParamBuilder.new d)).returningSuffix := by
        unfold ParamBuilder.returningSuffix
        rw [e1, e16]
      simp only [string_append_assoc]
      rw [substQ_append_noQ_left _ _ _ h1,
        substQ_append_noQ_left _ _ _ h2,
        substQ_append_noQ_right _ _ _ (by rw [hwq, List.length_map]) h8,
        substQ_whereSeg_pairs _ _ (wherePairs cs) hwc hwcI hwpc,
        hretEq]

/-- Claim C1 counterexample (on the spec-modelled builder): (a) a safe
sequence that binds a WHERE parameter and then switches to INSERT renders one
placeholder but keeps two parameters — the counts disagree; (b) a safe UPDATE
sequence calling `where_eq` before `set_param` renders the placeholders in
SET-then-WHERE order while the parameters are in call order, so substituting
the i-th parameter into the i-th placeholder swaps the two values relative to
their call sites (the inline rendering). -/
theorem param_placeholder_refuted :
    (mixedKindCalls.all SafeCall = true ∧
     (applyParamCalls mixedKindCalls (ParamBuilder.new .SQLite)).build
        = .ok "INSERT INTO t (c) VALUES (?)" ∧
     countQ "INSERT INTO t (c) VALUES (?)" = 1 ∧
     (applyParamCalls mixedKindCalls (ParamBuilder.new .SQLite)).params.length = 2) ∧
    (updateOrderCalls.all SafeCall = true ∧
     (applyParamCalls updateOrderCalls (ParamBuilder.new .SQLite)).build
        = .ok "UPDATE t SET b = ? WHERE a = ?" ∧
     (applyParamCalls updateOrderCalls (ParamBuilder.new .SQLite)).params
        = [.I32 1, .I32 2] ∧
     substQ "UPDATE t SET b = ? WHERE a = ?"
         ((applyParamCalls updateOrderCalls (ParamBuilder.new .SQLite)).params.map litParam)
        = "UPDATE t SET b = 1 WHERE a = 2" ∧
     (applyInlineCalls updateOrderCalls (ParamBuilder.new .SQLite)).build
        = .ok "UPDATE t SET b = 2 WHERE a = 1") := by
  decide

/-- Claim C1 (amended): for every dialect and every safe call sequence
(values supplied only through `where_eq`/`values_params`/`set_param`, no
stray placeholder token in raw text) in which every value-accepting call's
clause is rendered by the final statement kind and the value-accepting calls
occur in clause render order (no `set_param` after a `where_eq`), a successful
`build()` renders exactly as many placeholder tokens as `params()` has
entries, and substituting the parameters' literal spellings into the
placeholders left to right reproduces exactly the statement in which each
value sits at its own call site (the inline interpretation's rendering). -/
theorem param_placeholder_correspondence (d : Dialect) (cs : List ParamCall) (sql : String)
    (hsafe : ∀ c ∈ cs, SafeCall c = true)
    (hkind : ∀ c ∈ cs,
      RendersInKind c (applyParamCalls cs (ParamBuilder.new d)).query_type = true)
    (hord : valueOrdered cs = true)
    (hb : (applyParamCalls cs (ParamBuilder.new d)).build = .ok sql) :
    countQ sql = (applyParamCalls cs (ParamBuilder.new d)).params.length ∧
    (applyInlineCalls cs (ParamBuilder.new d)).build
      = .ok (substQ sql ((applyParamCalls cs (ParamBuilder.new d)).params.map litParam)) := by
  cases hqt : (applyParamCalls cs (ParamBuilder.new d)).query_type with
  | Select => exact c1_select d cs sql hsafe (by simpa [hqt] using hkind) hqt hb
  | Insert => exact c1_insert d cs sql hsafe (by simpa [hqt] using hkind) hqt hb
  | Update => exact c1_update d cs sql hsafe (by simpa [hqt] using hkind) hord hqt hb
  | Delete => exact c1_delete d cs sql hsafe (by simpa [hqt] using hkind) hqt hb

/-- Witness for C1 (amended): a disciplined UPDATE sequence — `set_param`
before `where_eq` — has two placeholders for its two parameters, and
substituting them left to right reproduces the inline statement with each
value at its call site. -/
theorem param_placeholder_correspondence_witness :
    countQ "UPDATE t SET b = ? WHERE a = ?"
        = (applyParamCalls [.update "t", .set_param "b" (.I32 2), .where_eq "a" (.I32 1)]
            (ParamBuilder.new .SQLite)).params.length ∧
    (applyInlineCalls [.update "t", .set_param "b" (.I32 2), .where_eq "a" (.I32 1)]
        (ParamBuilder.new .SQLite)).build
      = .ok (substQ "UPDATE t SET b = ? WHERE a = ?"
          ((applyParamCalls [.update "t", .set_param "b" (.I32 2), .where_eq "a" (.I32 1)]
              (ParamBuilder.new .SQLite)).params.map litParam)) :=
  param_placeholder_correspondence .SQLite
    [.update "t", .set_param "b" (.I32 2), .where_eq "a" (.I32 1)]
    "UPDATE t SET b = ? WHERE a = ?"
    (by decide) (by decide) (by decide) (by decide)

end Orm
